import Mathlib

/-!
Verification of the tool-interaction core of `geo_logic` (`gtool.py`).

The development shallowly embeds the file `gtool.py`:

* `coor_to_obj`, `coor_to_attempts` — the object picker (`ObjSelector`);
* `HighlightList` with `add`/`load`/`save`/`reset_save`/`pop`/`remove`/`remove_if`;
* the generic tool state machine `GTool` (press / release / motion / reset /
  confirm cycle), with the dynamically reassigned handler attributes
  (`update`, `drag`, `drag_start`, `confirm`, `confirm_next`, `on_reset`)
  represented by tool-chosen handler and action codes interpreted by a
  `ToolSpec`;
* the concrete tools `GToolHide` and (the drag part of) `GToolMove`.

Python mutable state is passed explicitly; Python `float` coordinates and
distances are represented by `ℚ`; an operation that can raise
(`AttributeError` on a missing attribute, a failed `assert`, `pop`/`remove`
on a missing element) returns an `Option`, with `none` for the raised error.
-/

namespace GeoLogic

/-- Geometric coordinates: a 2-d point, as the numpy pair used by `gtool.py`. -/
abbrev Coor : Type := ℚ × ℚ

/-- Decides `np.linalg.norm v >= t` (Euclidean norm) without leaving `ℚ`:
`‖v‖ ≥ t` iff `t ≤ 0` or `t² ≤ v.1² + v.2²`. -/
def norm_ge (v : Coor) (t : ℚ) : Bool :=
  decide (t ≤ 0) || decide (t * t ≤ v.1 * v.1 + v.2 * v.2)

/-! ## HighlightList (`gtool.py` lines 85–103)

`l` is the current working list of `(object, permanent)` pairs, `saved` is the
list created by `__init__` (and then never touched again by any method), and
`ini` is the baseline attribute created only by `save`/`reset_save`: it is
`none` while the attribute does not exist yet, so that `load` on a fresh list
reproduces the `AttributeError` of the Python code as `none`. -/

structure HighlightList (α : Type) where
  l : List (α × Bool)
  saved : List (α × Bool)
  ini : Option (List (α × Bool))
deriving DecidableEq

/-- The `HighlightList()`: `self.l = []`, `self.saved = []`; no `ini` attribute yet. -/
def HighlightList.mkNew (α : Type) : HighlightList α :=
  { l := [], saved := [], ini := none }

/-- The `to_list`: project the working list to plain objects. -/
def HighlightList.to_list {α : Type} (h : HighlightList α) : List α :=
  h.l.map (fun x => x.1)

/-- The `add(*args, permanent = False)`: extend the working list. -/
def HighlightList.add {α : Type} (h : HighlightList α) (args : List α)
    (permanent : Bool) : HighlightList α :=
  { h with l := h.l ++ args.map (fun a => (a, permanent)) }

/-- The `load`: `self.l = list(self.ini)`; `none` when the `ini` attribute does not
exist yet (the Python `AttributeError`). -/
def HighlightList.load {α : Type} (h : HighlightList α) : Option (HighlightList α) :=
  h.ini.map (fun i => { h with l := i })

/-- The `save`: `self.ini = [x for x in self.l if x[1]]`. -/
def HighlightList.save {α : Type} (h : HighlightList α) : HighlightList α :=
  { h with ini := some (h.l.filter (fun x => x.2)) }

/-- The `reset_save`: `self.ini = []`. -/
def HighlightList.reset_save {α : Type} (h : HighlightList α) : HighlightList α :=
  { h with ini := some [] }

/-- The `pop`: remove and return the last working entry; `none` on the empty list
(the Python `IndexError`). -/
def HighlightList.pop {α : Type} (h : HighlightList α) :
    Option ((α × Bool) × HighlightList α) :=
  match h.l.getLast? with
  | none => none
  | some x => some (x, { h with l := h.l.dropLast })

/-- The `remove(x)`: `self.l.remove((x, True))`; `none` when no such entry exists
(the Python `ValueError`). -/
def HighlightList.remove {α : Type} [DecidableEq α] (h : HighlightList α) (x : α) :
    Option (HighlightList α) :=
  if (x, true) ∈ h.l then some { h with l := h.l.erase (x, true) } else none

/-- The `remove_if(cond)`: keep the working entries whose object fails `cond`. -/
def HighlightList.remove_if {α : Type} (h : HighlightList α) (cond : α → Bool) :
    HighlightList α :=
  { h with l := h.l.filter (fun x => !cond x.1) }

/-! ## ObjSelector (`gtool.py` lines 19–61) -/

/-- The `self.find_radius_pix = 20` (set in `ObjSelector.__init__`). -/
def find_radius_pix : ℚ := 20

/-- The `_update_find_radius`: `self.find_radius = self.find_radius_pix / self.viewport.scale`.
`coor_to_obj` runs this at the start of every picking call, so in the pure
embedding the radius is a function of the current viewport scale. -/
def find_radius (scale : ℚ) : ℚ := find_radius_pix / scale

/-- Python `min(l, key, default)`: the first element with minimal key, or
`default` when the list is empty. -/
def pyMinD {γ : Type} (key : γ → ℚ) (default : γ) (l : List γ) : γ :=
  match l with
  | [] => default
  | x :: xs => xs.foldl (fun acc y => if key y < key acc then y else acc) x

/-- The filtering step of `coor_to_obj` (`gtool.py` lines 28–29): the
candidates passing `filter_f`, all of them when no filter is given. -/
def filtered_candidates {α β : Type} (l : List (α × β))
    (filter_f : Option (α → β → Bool)) : List (α × β) :=
  match filter_f with
  | none => l
  | some f => l.filter (fun p => f p.1 p.2)

/-- The `ObjSelector.coor_to_obj(coor, l, filter_f)`: filter the candidate list,
take the candidate of minimal `dist_from(coor)`, and return `(None, None)`
when that minimal distance is `>= self.find_radius` (also covering the empty
list, whose default distance `0` pairs with `(None, None)` anyway).
The distance function of the numeric objects (`geo_object.py`, an external
collaborator) is the parameter `dist`. -/
def coor_to_obj {α β : Type} (dist : β → Coor → ℚ) (scale : ℚ) (coor : Coor)
    (l : List (α × β)) (filter_f : Option (α → β → Bool)) : Option α × Option β :=
  let l' := filtered_candidates l filter_f
  let candidates := l'.map (fun p => (dist p.2 coor, (some p.1, some p.2)))
  let m := pyMinD (fun x => x.1) (0, (none, none)) candidates
  if find_radius scale ≤ m.1 then (none, none) else m.2

/-- The `ObjSelector.coor_to_attempts(coor, *selectors)`: try the selectors in
order, returning the first result whose object component is not `None`. -/
def coor_to_attempts {α β : Type} (coor : Coor)
    (selectors : List (Coor → Option α × Option β)) : Option α × Option β :=
  match selectors with
  | [] => (none, none)
  | sel :: rest =>
    let r := sel coor
    if r.1.isSome then r else coor_to_attempts coor rest

/-! ## GTool (`gtool.py` lines 122–306)

The engine state `GT α σ H A` carries the Python instance attributes of a
`GTool`: the press anchor `click_coor`, the `dragged` flag, the three
`HighlightList`s, the dynamically reassigned handler attributes, the viewport
scale (assigned by `enter`), and the external state `tst` of type `σ` (the
collaborating `vis`/tool data a concrete tool reads and writes).

A concrete tool (a `GTool` subclass) is a `ToolSpec`: handler values of type
`H` stand for the bound methods (possibly tuples with extra arguments, as in
`run_tuple`) stored in `self.update` / `self.drag` / `self.confirm_next`, and
action values of type `A` stand for the ones stored in `self.confirm` /
`self.drag_start` / `self.on_reset`.  As documented in the source (lines
114–120), an update handler may rewrite the highlight lists and the
`confirm` / `confirm_next` / `drag_start` / `drag` attributes (a `TEffect`);
the actions of the tools in the source only touch the external state and, for
`GToolMove.move_start`, the `on_reset` attribute (an `ActEffect`).

`vis_proposals` / `vis_selected` / `vis_helpers` record the snapshots pushed
to the rendering layer by `_hl_update`.  `ghost_confirms` and `ghost_drags`
are ghost instrumentation, absent from the source and never read by the
engine: they count executed confirm cycles and drag activations. -/

/-- The part of the engine state an update handler may rewrite
(source comment, `gtool.py` lines 114–120). -/
structure TEffect (α σ H A : Type) where
  hl_proposals : HighlightList α
  hl_selected : HighlightList α
  hl_helpers : HighlightList α
  drag : Option H
  drag_start : Option A
  confirm : Option A
  confirm_next : Option H
  on_reset : A
  tst : σ
deriving DecidableEq

/-- The part of the engine state an action (`confirm`, `drag_start`,
`on_reset`) may rewrite. -/
structure ActEffect (σ A : Type) where
  on_reset : A
  tst : σ
deriving DecidableEq

/-- The live state of one `GTool` instance. -/
structure GT (α σ H A : Type) where
  scale : ℚ
  dragged : Bool
  click_coor : Option Coor
  hl_proposals : HighlightList α
  hl_selected : HighlightList α
  hl_helpers : HighlightList α
  update : H
  drag : Option H
  drag_start : Option A
  confirm : Option A
  confirm_next : Option H
  on_reset : A
  tst : σ
  vis_proposals : List α
  vis_selected : List α
  vis_helpers : List α
  ghost_confirms : ℕ
  ghost_drags : ℕ
deriving DecidableEq

/-- A concrete tool: the per-tool constant `distance_to_drag_pix`, the
`update_basic` handler, and the interpretation of handler and action values. -/
structure ToolSpec (α σ H A : Type) where
  distance_to_drag_pix : ℚ
  update_basic : H
  run_update : H → Coor → GT α σ H A → TEffect α σ H A
  run_action : A → GT α σ H A → ActEffect σ A

variable {α σ H A : Type}

/-- The identity effect: the handler-writable part of the current state. -/
def GT.eff (s : GT α σ H A) : TEffect α σ H A :=
  { hl_proposals := s.hl_proposals, hl_selected := s.hl_selected,
    hl_helpers := s.hl_helpers, drag := s.drag, drag_start := s.drag_start,
    confirm := s.confirm, confirm_next := s.confirm_next,
    on_reset := s.on_reset, tst := s.tst }

/-- Write a handler's effect back into the engine state. -/
def applyEff (s : GT α σ H A) (e : TEffect α σ H A) : GT α σ H A :=
  { s with
    hl_proposals := e.hl_proposals, hl_selected := e.hl_selected,
    hl_helpers := e.hl_helpers, drag := e.drag, drag_start := e.drag_start,
    confirm := e.confirm, confirm_next := e.confirm_next,
    on_reset := e.on_reset, tst := e.tst }

/-- Write an action's effect back into the engine state. -/
def applyAct (s : GT α σ H A) (e : ActEffect σ A) : GT α σ H A :=
  { s with on_reset := e.on_reset, tst := e.tst }

/-- The `_hl_reset`: `reset_save` on all three highlight lists. -/
def hl_reset_all (s : GT α σ H A) : GT α σ H A :=
  { s with
    hl_proposals := s.hl_proposals.reset_save,
    hl_selected := s.hl_selected.reset_save,
    hl_helpers := s.hl_helpers.reset_save }

/-- The `_hl_load`: `load` on all three highlight lists; `none` when any of the
three baselines does not exist yet (the Python `AttributeError`). -/
def hl_load_all (s : GT α σ H A) : Option (GT α σ H A) :=
  match s.hl_proposals.load, s.hl_selected.load, s.hl_helpers.load with
  | some p, some q, some r =>
    some { s with hl_proposals := p, hl_selected := q, hl_helpers := r }
  | _, _, _ => none

/-- The `_hl_save`: `save` on all three highlight lists. -/
def hl_save_all (s : GT α σ H A) : GT α σ H A :=
  { s with
    hl_proposals := s.hl_proposals.save,
    hl_selected := s.hl_selected.save,
    hl_helpers := s.hl_helpers.save }

/-- The `_hl_update`: push the three snapshots to the rendering layer. -/
def hl_update_all (s : GT α σ H A) : GT α σ H A :=
  { s with
    vis_selected := s.hl_selected.to_list,
    vis_proposals := s.hl_proposals.to_list,
    vis_helpers := s.hl_helpers.to_list }

/-- The `_pre_update`: reload the highlight lists, recompute the find radius
(stateless here: the radius is a function of the scale), and clear the
volatile per-move handler attributes. -/
def pre_update (s : GT α σ H A) : Option (GT α σ H A) :=
  (hl_load_all s).map (fun s =>
    { s with
      drag := none, drag_start := none, confirm := none,
      confirm_next := none })

/-- The `_run_update(coor)`: `_pre_update`, run the current update handler at
`coor` (`run_tuple(self.update, coor)`), then `_hl_update`. -/
def run_update_cycle (T : ToolSpec α σ H A) (s : GT α σ H A) (coor : Coor) :
    Option (GT α σ H A) :=
  (pre_update s).map (fun s =>
    hl_update_all (applyEff s (T.run_update s.update coor s)))

/-- The `_run_confirm()`: run the confirm action if set; then either chain
(`update := confirm_next`, `_hl_save`) or reset the baselines, restore
`update_basic` and run the reset hook.  The ghost counter records that one
confirm cycle executed. -/
def run_confirm_cycle (T : ToolSpec α σ H A) (s : GT α σ H A) : GT α σ H A :=
  let s := { s with ghost_confirms := s.ghost_confirms + 1 }
  let s := match s.confirm with
    | none => s
    | some a => applyAct s (T.run_action a s)
  match s.confirm_next with
  | some h => hl_save_all { s with update := h }
  | none =>
    let s := hl_reset_all s
    let s := { s with update := T.update_basic }
    applyAct s (T.run_action s.on_reset s)

/-- The `reset()`: clear the press/drag state, clear the baselines, run a
pre-update and a `_hl_update`, restore `update_basic`, and run the
`on_reset` hook. -/
def reset (T : ToolSpec α σ H A) (s : GT α σ H A) : Option (GT α σ H A) :=
  let s := { s with dragged := false, click_coor := none }
  let s := hl_reset_all s
  (pre_update s).map (fun s =>
    let s := hl_update_all s
    let s := { s with update := T.update_basic }
    applyAct s (T.run_action s.on_reset s))

/-- The `button_press(coor)`: implicit reset when already pressed; run the update
cycle; without a drag handler run the confirm cycle and a second update
cycle, otherwise record the press anchor, run `drag_start` if set, and save
the baselines. -/
def button_press_core (T : ToolSpec α σ H A) (s : GT α σ H A) (coor : Coor) :
    Option (GT α σ H A) :=
  (run_update_cycle T s coor).bind (fun s =>
    match s.drag with
    | none => run_update_cycle T (run_confirm_cycle T s) coor
    | some _ =>
      let s := { s with click_coor := some coor, dragged := false }
      let s := match s.drag_start with
        | none => s
        | some a => applyAct s (T.run_action a s)
      some (hl_save_all s))

def button_press (T : ToolSpec α σ H A) (s : GT α σ H A) (coor : Coor) :
    Option (GT α σ H A) :=
  (if s.click_coor.isSome then reset T s else some s).bind
    (fun s => button_press_core T s coor)

/-- The `button_release(coor)`: when pressed, clear the press anchor and the
dragging flag and run the confirm cycle; always run the update cycle. -/
def button_release (T : ToolSpec α σ H A) (s : GT α σ H A) (coor : Coor) :
    Option (GT α σ H A) :=
  let s := if s.click_coor.isSome
    then run_confirm_cycle T { s with click_coor := none, dragged := false }
    else s
  run_update_cycle T s coor

/-- The `motion(coor, button_pressed)`: when pressed with the button reported up,
reset; when pressed, not yet dragging and the movement from the press anchor
reaches `distance_to_drag_pix / scale`, activate the drag handler
(`assert(self.drag is not None)` is the `none` branch); finally run the
update cycle unless pressed-but-not-dragging. -/
def motion (T : ToolSpec α σ H A) (s : GT α σ H A) (coor : Coor)
    (button_pressed : Bool) : Option (GT α σ H A) :=
  let s0 : Option (GT α σ H A) :=
    match s.click_coor with
    | none => some s
    | some cc =>
      if !button_pressed then reset T s
      else if !s.dragged then
        if norm_ge (coor.1 - cc.1, coor.2 - cc.2)
            (T.distance_to_drag_pix / s.scale) then
          match s.drag with
          | none => none
          | some h => some { s with
              update := h, dragged := true,
              ghost_drags := s.ghost_drags + 1 }
        else some s
      else some s
  s0.bind (fun s =>
    if s.click_coor.isNone || s.dragged then run_update_cycle T s coor
    else some s)

/-- The `GTool.enter(viewport)`: record the viewport (its scale) and `reset()`. -/
def enter (T : ToolSpec α σ H A) (s : GT α σ H A) (vscale : ℚ) :
    Option (GT α σ H A) :=
  reset T { s with scale := vscale }

/-- All three baseline attributes exist. -/
def inis_some (s : GT α σ H A) : Prop :=
  s.hl_proposals.ini.isSome ∧ s.hl_selected.ini.isSome ∧ s.hl_helpers.ini.isSome

instance (s : GT α σ H A) : Decidable (inis_some s) := by
  unfold inis_some; infer_instance

/-- The state the confirm cycle examines after running the confirm action
(the first half of `_run_confirm`, `gtool.py` lines 210–211, plus the ghost
count). -/
def after_confirm_action (T : ToolSpec α σ H A) (s : GT α σ H A) : GT α σ H A :=
  let s := { s with ghost_confirms := s.ghost_confirms + 1 }
  match s.confirm with
  | none => s
  | some a => applyAct s (T.run_action a s)

/-- The state `_pre_update` produces when the three baselines are the given
lists: working lists reloaded, volatile handler attributes cleared. -/
def pre_loaded (s : GT α σ H A) (ip iq ih : List (α × Bool)) : GT α σ H A :=
  { s with
    hl_proposals := { s.hl_proposals with l := ip }
    hl_selected := { s.hl_selected with l := iq }
    hl_helpers := { s.hl_helpers with l := ih }
    drag := none, drag_start := none, confirm := none, confirm_next := none }

/-! ## GToolHide (`gtool.py` lines 390–430) -/

/-- Handler codes of `GToolHide`: `update_basic` and `update_unhide`. -/
inductive HideH where
  | basic
  | unhide
deriving DecidableEq

/-- Action codes of `GToolHide`: `self.vis.hide(obj)`,
`self.set_show_all(value)`, `self.unhide(obj)`, and the tool's `on_reset`
method (which runs `set_show_all(False)`). -/
inductive HideA where
  | hideA (gi : ℕ)
  | setShowAllA (value : Bool)
  | unhideA (gi : ℕ)
  | onResetA
deriving DecidableEq

/-- The collaborating scene state read and written by the hide tool: the
selectable-object lists (graphical index with numeric object), the
`show_all_mode` flag and the per-object hidden flags `gi_to_hidden`. -/
structure HideVis (β : Type) where
  selectable_points : List (ℕ × β)
  selectable_lines : List (ℕ × β)
  selectable_circles : List (ℕ × β)
  show_all_mode : Bool
  gi_to_hidden : ℕ → Bool

/-- The `GToolHide.set_show_all(value)` (`gtool.py` lines 426–430): update the
flag only when it differs; the `set_cursor_by_tool` and `refresh` calls
touch only the rendering collaborator. -/
def set_show_all {β : Type} (v : HideVis β) (value : Bool) : HideVis β :=
  if v.show_all_mode != value then { v with show_all_mode := value } else v

/-- Modelled from the spec: `self.vis.hide(obj)`, the confirm action of a
click on a visible object.  `graphical_env.py` is not among the sources; the
spec says the scene layer "exposes per-object `hidden` flag storage", so the
operation is modelled as setting the object's hidden flag. -/
def vis_hide {β : Type} (v : HideVis β) (gi : ℕ) : HideVis β :=
  { v with gi_to_hidden := fun g => if g = gi then true else v.gi_to_hidden g }

/-- The `GToolHide.unhide(obj)` (`gtool.py` lines 416–418):
`self.vis.gi_to_hidden[obj] = False` then `set_show_all(False)`. -/
def unhide_obj {β : Type} (v : HideVis β) (gi : ℕ) : HideVis β :=
  set_show_all
    { v with gi_to_hidden := fun g => if g = gi then false else v.gi_to_hidden g }
    false

/-- The `coor_to_pcl` over explicit selectable lists: `coor_to_point` first, then
`coor_to_cl` over the chained lines and circles (`gtool.py` lines 38–57). -/
def coor_to_pcl_lists {β : Type} (dist : β → Coor → ℚ) (scale : ℚ)
    (points lines circles : List (ℕ × β)) (coor : Coor)
    (filter_f : Option (ℕ → β → Bool)) : Option ℕ × Option β :=
  coor_to_attempts coor
    [fun c => coor_to_obj dist scale c points filter_f,
     fun c => coor_to_obj dist scale c (lines ++ circles) filter_f]

/-- The hide tool's `select_pcl` pick, over its scene state. -/
def hide_coor_to_pcl {β : Type} (dist : β → Coor → ℚ) (scale : ℚ)
    (v : HideVis β) (coor : Coor) (filter_f : Option (ℕ → β → Bool)) :
    Option ℕ × Option β :=
  coor_to_pcl_lists dist scale v.selectable_points v.selectable_lines
    v.selectable_circles coor filter_f

abbrev HideGT (β : Type) := GT ℕ (HideVis β) HideH HideA

/-- The `GToolHide` as a `ToolSpec`.  `update_basic` (`gtool.py` lines 399–405)
picks any visible object (`select_pcl` also records it in `hl_selected` with
`permanent = True`) and prepares `vis.hide`; on empty space it prepares
`set_show_all(True)` and chains to `update_unhide`.  `update_unhide` (lines
407–414) picks among hidden objects only (`filter_f = is_hidden`) and
prepares `unhide`, or `set_show_all(False)` on empty space. -/
def hideTool {β : Type} (dist : β → Coor → ℚ) :
    ToolSpec ℕ (HideVis β) HideH HideA :=
  { distance_to_drag_pix := 5
    update_basic := HideH.basic
    run_update := fun h coor s =>
      match h with
      | HideH.basic =>
        match (hide_coor_to_pcl dist s.scale s.tst coor none).1 with
        | some obj =>
          { s.eff with
            hl_selected := s.hl_selected.add [obj] true
            confirm := some (HideA.hideA obj) }
        | none =>
          { s.eff with
            confirm := some (HideA.setShowAllA true)
            confirm_next := some HideH.unhide }
      | HideH.unhide =>
        match (hide_coor_to_pcl dist s.scale s.tst coor
            (some (fun gi _ => s.tst.gi_to_hidden gi))).1 with
        | some obj =>
          { s.eff with
            hl_selected := s.hl_selected.add [obj] true
            confirm := some (HideA.unhideA obj) }
        | none => { s.eff with confirm := some (HideA.setShowAllA false) }
    run_action := fun a s =>
      match a with
      | HideA.hideA gi => { on_reset := s.on_reset, tst := vis_hide s.tst gi }
      | HideA.setShowAllA value =>
        { on_reset := s.on_reset, tst := set_show_all s.tst value }
      | HideA.unhideA gi => { on_reset := s.on_reset, tst := unhide_obj s.tst gi }
      | HideA.onResetA =>
        { on_reset := s.on_reset, tst := set_show_all s.tst false } }

/-- The `GToolHide.leave` (`gtool.py` lines 420–422): `set_show_all(False)`,
then `GTool.leave`, which resets. -/
def hide_leave {β : Type} (dist : β → Coor → ℚ) (s : HideGT β) :
    Option (HideGT β) :=
  reset (hideTool dist) { s with tst := set_show_all s.tst false }

/-! ## GToolMove (`gtool.py` lines 343–388), centred on the drag handler -/

/-- Overlay entries of the move tool: selected graphical indices and proposed
numeric points. -/
inductive MoveE where
  | gi (n : ℕ)
  | pt (c : Coor)
deriving DecidableEq

/-- Modelled from the spec: the kind of the dragged step's tool.  The spec
singles out the two-solution `Intersection` construction
(`movable_tools.py` is not among the sources). -/
inductive MTool where
  | intersection
  | other
deriving DecidableEq

/-- Handler codes of `GToolMove`: `update_basic`, and the drag tuple
`(self.move_obj, step, grasp, num_args)` with the step represented by its
tool kind and the grasp by a rational descriptor. -/
inductive MoveH where
  | basic
  | moveObj (tool : MTool) (grasp : ℚ)
deriving DecidableEq

/-- Action codes of `GToolMove`: `move_start`, and
`viewport.set_cursor_by_tool` (the value `move_start` assigns to
`self.on_reset`; it only touches the rendering collaborator). -/
inductive MoveA where
  | moveStartA
  | setCursorA
deriving DecidableEq

/-- The move tool's view of the collaborating state: the selectable objects,
the dragged step's mutable hyper-parameter (for an intersection the chosen
solution index, `false` = first), and the intersection's current ordered
candidate pair.  Modelled from the spec: `Intersection.ordered_candidates`
(`movable_tools.py`) is not among the sources; the spec describes "an
intersection with two ordered candidates", so `cands` is `none` exactly when
the dragged object does not currently have two solutions (the numeric
arguments feeding `ordered_candidates` are refreshed between update cycles
by `env.refresh_steps`). -/
structure MoveVis where
  selectable_points : List (ℕ × Coor)
  selectable_lines : List (ℕ × Coor)
  selectable_circles : List (ℕ × Coor)
  hyper_i : Bool
  cands : Option (Coor × Coor)
deriving DecidableEq

abbrev MoveGT := GT MoveE MoveVis MoveH MoveA

/-- The `GToolMove` as a `ToolSpec`, parametrized by the external collaborators:
`dist` (numeric distance, `geo_object.py`); `nh`, modelled from the spec:
`tool.new_hyperpar(grasp, coor, *num_args)` recomputes the chosen
intersection index from the grasp and the cursor; and `lookup`, modelled
from the spec: `env.gi_to_step` plus `step.tool.get_grasp` give the tool
kind and grasp descriptor of the step producing a picked object.

`update_basic` (`gtool.py` lines 355–364) picks the nearest object
(`select_pcl`, `permanent = False`) and installs the drag handler and
`move_start`.  The drag handler `move_obj` (lines 370–378) stores the
recomputed hyper-parameter and, when the dragged step's tool is an
intersection with two current candidates, proposes the non-selected one:
`self.hl_propose(Point(intersections[1-i]))`, non-permanent;
`env.refresh_steps` and `update_hyperpar_hook` touch only the collaborating
logic engine. -/
def moveTool (dist : Coor → Coor → ℚ) (nh : ℚ → Coor → Bool)
    (lookup : ℕ → MTool × ℚ) : ToolSpec MoveE MoveVis MoveH MoveA :=
  { distance_to_drag_pix := 0
    update_basic := MoveH.basic
    run_update := fun h coor s =>
      match h with
      | MoveH.basic =>
        match (coor_to_pcl_lists dist s.scale s.tst.selectable_points
            s.tst.selectable_lines s.tst.selectable_circles coor none).1 with
        | none => s.eff
        | some obj =>
          let tg := lookup obj
          { s.eff with
            hl_selected := s.hl_selected.add [MoveE.gi obj] false
            drag := some (MoveH.moveObj tg.1 tg.2)
            drag_start := some MoveA.moveStartA }
      | MoveH.moveObj tool grasp =>
        let i := nh grasp coor
        let e := { s.eff with tst := { s.tst with hyper_i := i } }
        match tool with
        | MTool.intersection =>
          match s.tst.cands with
          | some cs =>
            { e with
              hl_proposals := e.hl_proposals.add
                [MoveE.pt (if i then cs.1 else cs.2)] false }
          | none => e
        | MTool.other => e
    run_action := fun a s =>
      match a with
      | MoveA.moveStartA => { on_reset := MoveA.setCursorA, tst := s.tst }
      | MoveA.setCursorA => { on_reset := s.on_reset, tst := s.tst } }

/-! ## Concrete tools and states used for closed evaluations -/

/-- Handler codes of the small demonstration tools. -/
inductive DH where
  | basic
  | other
deriving DecidableEq

/-- A demonstration tool whose basic handler installs a drag handler. -/
def demoDragTool : ToolSpec ℕ ℕ DH Bool :=
  { distance_to_drag_pix := 5
    update_basic := DH.basic
    run_update := fun h _ s =>
      match h with
      | DH.basic => { s.eff with drag := some DH.other }
      | DH.other => s.eff
    run_action := fun a s =>
      { on_reset := s.on_reset, tst := if a then s.tst + 1 else s.tst } }

/-- A demonstration tool whose handlers set a confirm action. -/
def demoConfirmTool : ToolSpec ℕ ℕ DH Bool :=
  { distance_to_drag_pix := 5
    update_basic := DH.basic
    run_update := fun _ _ s => { s.eff with confirm := some true }
    run_action := fun a s =>
      { on_reset := s.on_reset, tst := if a then s.tst + 1 else s.tst } }

/-- A generic engine state with empty working lists and existing (empty)
baselines. -/
def mkGT {α σ H A : Type} (upd : H) (o : A) (t : σ) (click : Option Coor)
    (drag : Option H) : GT α σ H A :=
  { scale := 1
    dragged := false
    click_coor := click
    hl_proposals := { l := [], saved := [], ini := some [] }
    hl_selected := { l := [], saved := [], ini := some [] }
    hl_helpers := { l := [], saved := [], ini := some [] }
    update := upd
    drag := drag
    drag_start := none
    confirm := none
    confirm_next := none
    on_reset := o
    tst := t
    vis_proposals := []
    vis_selected := []
    vis_helpers := []
    ghost_confirms := 0
    ghost_drags := 0 }

/-- A pressed demo state (press anchor at the origin). -/
def gtA : GT ℕ ℕ DH Bool := mkGT DH.basic false 0 (some (0, 0)) none

/-- A pressed demo state with an armed drag handler. -/
def gtB : GT ℕ ℕ DH Bool := mkGT DH.basic false 0 (some (0, 0)) (some DH.other)

/-- An unpressed demo state. -/
def gtC : GT ℕ ℕ DH Bool := mkGT DH.basic false 0 none none

/-- An unpressed demo state with a pending chained confirm. -/
def gtChain : GT ℕ ℕ DH Bool :=
  { (mkGT DH.basic false 0 none none : GT ℕ ℕ DH Bool) with
    hl_proposals := { l := [(1, false), (2, true)], saved := [], ini := some [] }
    hl_selected := { l := [(3, true)], saved := [], ini := some [] }
    hl_helpers := { l := [(4, false)], saved := [], ini := some [] }
    confirm_next := some DH.other }

/-- A freshly constructed demo state: the highlight lists have no baseline
attribute yet, as after `GTool.__init__` and before any reset. -/
def gtFresh : GT ℕ ℕ DH Bool :=
  { (mkGT DH.basic false 0 none none : GT ℕ ℕ DH Bool) with
    hl_proposals := HighlightList.mkNew ℕ
    hl_selected := HighlightList.mkNew ℕ
    hl_helpers := HighlightList.mkNew ℕ }

/-- The trivial numeric distance used by the concrete hide scenarios. -/
def dist0 {β : Type} : β → Coor → ℚ := fun _ _ => 0

/-- A hide-tool scene with nothing selectable. -/
def hVis1 : HideVis Unit :=
  { selectable_points := []
    selectable_lines := []
    selectable_circles := []
    show_all_mode := false
    gi_to_hidden := fun _ => false }

/-- A hide-tool scene whose only object (index 7) is hidden, in show-all
mode. -/
def hVis2 : HideVis Unit :=
  { selectable_points := [(7, ())]
    selectable_lines := []
    selectable_circles := []
    show_all_mode := true
    gi_to_hidden := fun g => g == 7 }

/-- A hide-tool state in the basic phase over the empty scene. -/
def hGT1 : HideGT Unit := mkGT HideH.basic HideA.onResetA hVis1 none none

/-- A hide-tool state chained to `update_unhide` over the hidden-object
scene. -/
def hGT2 : HideGT Unit := mkGT HideH.unhide HideA.onResetA hVis2 none none

/-- The concrete move-tool collaborators: zero distance, `new_hyperpar`
always choosing the first solution, every object produced by an
intersection step. -/
def mT0 : ToolSpec MoveE MoveVis MoveH MoveA :=
  moveTool (fun _ _ => 0) (fun _ _ => false) (fun _ => (MTool.intersection, 0))

/-- A mid-drag move state whose intersection currently has the two ordered
solutions `(1, 1)` and `(2, 2)`, the first being selected. -/
def mGT1 : MoveGT :=
  { (mkGT (MoveH.moveObj MTool.intersection 0) MoveA.setCursorA
      { selectable_points := [], selectable_lines := [], selectable_circles := []
        hyper_i := false, cands := some ((1, 1), (2, 2)) }
      (some (0, 0)) none : MoveGT) with
    dragged := true }

/-- The same mid-drag move state after the dragged object stopped having two
solutions. -/
def mGT2 : MoveGT :=
  { mGT1 with tst := { mGT1.tst with cands := none } }

/-- A concrete highlight list: one sticky and one transient entry, no
baseline yet. -/
def hl5 : HighlightList ℕ := { l := [(1, true), (2, false)], saved := [], ini := none }

/-- The `hl5` after commit and restore. -/
def hl5r : HighlightList ℕ := { l := [(1, true)], saved := [], ini := some [(1, true)] }

/-- The `hl5r` after popping its only working entry. -/
def hl5pop : HighlightList ℕ := { l := [], saved := [], ini := some [(1, true)] }

/-! ## Basic lemmas about the embedding -/

/-- The `‖v‖ ≥ t` over the reals is exactly what `norm_ge` decides. -/
theorem norm_ge_iff (v : Coor) (t : ℚ) :
    norm_ge v t = true ↔ (t : ℝ) ≤ Real.sqrt ((v.1 : ℝ) ^ 2 + (v.2 : ℝ) ^ 2) := by
  have hy : (0 : ℝ) ≤ (v.1 : ℝ) ^ 2 + (v.2 : ℝ) ^ 2 := by positivity
  unfold norm_ge
  rcases le_or_lt t 0 with h | h
  · constructor
    · intro _
      exact le_trans (by exact_mod_cast h) (Real.sqrt_nonneg _)
    · intro _
      simp [h]
  · have ht : ¬ (t ≤ 0) := not_le.mpr h
    have ht' : (0 : ℝ) ≤ (t : ℝ) := by exact_mod_cast h.le
    rw [Real.le_sqrt ht' hy]
    simp only [Bool.or_eq_true, decide_eq_true_eq, ht, false_or]
    constructor
    · intro hle
      have h2 : ((t * t : ℚ) : ℝ) ≤ ((v.1 * v.1 + v.2 * v.2 : ℚ) : ℝ) := by
        exact_mod_cast hle
      push_cast at h2
      nlinarith [h2]
    · intro hle
      have h2 : ((t * t : ℚ) : ℝ) ≤ ((v.1 * v.1 + v.2 * v.2 : ℚ) : ℝ) := by
        push_cast
        nlinarith [hle]
      exact_mod_cast h2

@[simp] theorem HighlightList.ini_save {β : Type} (h : HighlightList β) :
    h.save.ini = some (h.l.filter (fun x => x.2)) := rfl

@[simp] theorem HighlightList.l_save {β : Type} (h : HighlightList β) :
    h.save.l = h.l := rfl

@[simp] theorem HighlightList.ini_reset_save {β : Type} (h : HighlightList β) :
    h.reset_save.ini = some [] := rfl

@[simp] theorem HighlightList.l_reset_save {β : Type} (h : HighlightList β) :
    h.reset_save.l = h.l := rfl

@[simp] theorem HighlightList.ini_add {β : Type} (h : HighlightList β)
    (args : List β) (p : Bool) : (h.add args p).ini = h.ini := rfl

@[simp] theorem HighlightList.saved_add {β : Type} (h : HighlightList β)
    (args : List β) (p : Bool) : (h.add args p).saved = h.saved := rfl

@[simp] theorem HighlightList.saved_save {β : Type} (h : HighlightList β) :
    h.save.saved = h.saved := rfl

@[simp] theorem HighlightList.saved_reset_save {β : Type} (h : HighlightList β) :
    h.reset_save.saved = h.saved := rfl

theorem HighlightList.load_of_ini {β : Type} (h : HighlightList β)
    (i : List (β × Bool)) (hi : h.ini = some i) :
    h.load = some { h with l := i } := by
  simp [HighlightList.load, hi]

@[simp] theorem HighlightList.load_none {β : Type} (h : HighlightList β)
    (hi : h.ini = none) : h.load = none := by
  simp [HighlightList.load, hi]

@[simp] theorem applyEff_click_coor (s : GT α σ H A) (e : TEffect α σ H A) :
    (applyEff s e).click_coor = s.click_coor := rfl

@[simp] theorem applyEff_dragged (s : GT α σ H A) (e : TEffect α σ H A) :
    (applyEff s e).dragged = s.dragged := rfl

@[simp] theorem applyEff_update (s : GT α σ H A) (e : TEffect α σ H A) :
    (applyEff s e).update = s.update := rfl

@[simp] theorem applyEff_scale (s : GT α σ H A) (e : TEffect α σ H A) :
    (applyEff s e).scale = s.scale := rfl

@[simp] theorem applyEff_ghost_confirms (s : GT α σ H A) (e : TEffect α σ H A) :
    (applyEff s e).ghost_confirms = s.ghost_confirms := rfl

@[simp] theorem applyEff_ghost_drags (s : GT α σ H A) (e : TEffect α σ H A) :
    (applyEff s e).ghost_drags = s.ghost_drags := rfl

@[simp] theorem applyAct_click_coor (s : GT α σ H A) (e : ActEffect σ A) :
    (applyAct s e).click_coor = s.click_coor := rfl

@[simp] theorem applyAct_dragged (s : GT α σ H A) (e : ActEffect σ A) :
    (applyAct s e).dragged = s.dragged := rfl

@[simp] theorem applyAct_update (s : GT α σ H A) (e : ActEffect σ A) :
    (applyAct s e).update = s.update := rfl

@[simp] theorem applyAct_scale (s : GT α σ H A) (e : ActEffect σ A) :
    (applyAct s e).scale = s.scale := rfl

@[simp] theorem applyAct_hl_proposals (s : GT α σ H A) (e : ActEffect σ A) :
    (applyAct s e).hl_proposals = s.hl_proposals := rfl

@[simp] theorem applyAct_hl_selected (s : GT α σ H A) (e : ActEffect σ A) :
    (applyAct s e).hl_selected = s.hl_selected := rfl

@[simp] theorem applyAct_hl_helpers (s : GT α σ H A) (e : ActEffect σ A) :
    (applyAct s e).hl_helpers = s.hl_helpers := rfl

@[simp] theorem applyAct_drag (s : GT α σ H A) (e : ActEffect σ A) :
    (applyAct s e).drag = s.drag := rfl

@[simp] theorem applyAct_confirm_next (s : GT α σ H A) (e : ActEffect σ A) :
    (applyAct s e).confirm_next = s.confirm_next := rfl

@[simp] theorem applyAct_confirm (s : GT α σ H A) (e : ActEffect σ A) :
    (applyAct s e).confirm = s.confirm := rfl

@[simp] theorem applyAct_drag_start (s : GT α σ H A) (e : ActEffect σ A) :
    (applyAct s e).drag_start = s.drag_start := rfl

@[simp] theorem applyAct_on_reset (s : GT α σ H A) (e : ActEffect σ A) :
    (applyAct s e).on_reset = e.on_reset := rfl

@[simp] theorem applyAct_tst (s : GT α σ H A) (e : ActEffect σ A) :
    (applyAct s e).tst = e.tst := rfl

@[simp] theorem applyAct_ghost_confirms (s : GT α σ H A) (e : ActEffect σ A) :
    (applyAct s e).ghost_confirms = s.ghost_confirms := rfl

@[simp] theorem applyAct_ghost_drags (s : GT α σ H A) (e : ActEffect σ A) :
    (applyAct s e).ghost_drags = s.ghost_drags := rfl

/-- The `hl_load_all` succeeds exactly when the three baselines exist. -/
theorem hl_load_all_isSome (s : GT α σ H A) :
    (hl_load_all s).isSome ↔ inis_some s := by
  unfold hl_load_all inis_some HighlightList.load
  rcases hp : s.hl_proposals.ini with _ | p <;>
    rcases hq : s.hl_selected.ini with _ | q <;>
      rcases hr : s.hl_helpers.ini with _ | r <;> simp

/-- Closed form of a successful `hl_load_all`. -/
theorem hl_load_all_eq (s : GT α σ H A) (p q r : List (α × Bool))
    (hp : s.hl_proposals.ini = some p) (hq : s.hl_selected.ini = some q)
    (hr : s.hl_helpers.ini = some r) :
    hl_load_all s = some { s with
      hl_proposals := { s.hl_proposals with l := p },
      hl_selected := { s.hl_selected with l := q },
      hl_helpers := { s.hl_helpers with l := r } } := by
  unfold hl_load_all
  rw [HighlightList.load_of_ini _ _ hp, HighlightList.load_of_ini _ _ hq,
    HighlightList.load_of_ini _ _ hr]

theorem hl_load_all_frame (s s' : GT α σ H A) (h : hl_load_all s = some s') :
    s'.click_coor = s.click_coor ∧ s'.dragged = s.dragged ∧
    s'.update = s.update ∧ s'.scale = s.scale ∧ s'.tst = s.tst ∧
    s'.drag = s.drag ∧ s'.confirm = s.confirm ∧
    s'.confirm_next = s.confirm_next ∧ s'.on_reset = s.on_reset ∧
    s'.ghost_confirms = s.ghost_confirms ∧ s'.ghost_drags = s.ghost_drags := by
  unfold hl_load_all at h
  rcases hp : s.hl_proposals.load with _ | p <;> rw [hp] at h <;>
    rcases hq : s.hl_selected.load with _ | q <;> rw [hq] at h <;>
      rcases hr : s.hl_helpers.load with _ | r <;> rw [hr] at h <;>
        simp_all <;> subst h <;> simp

theorem pre_update_frame (s s' : GT α σ H A) (h : pre_update s = some s') :
    s'.click_coor = s.click_coor ∧ s'.dragged = s.dragged ∧
    s'.update = s.update ∧ s'.scale = s.scale ∧ s'.tst = s.tst ∧
    s'.on_reset = s.on_reset ∧
    s'.ghost_confirms = s.ghost_confirms ∧ s'.ghost_drags = s.ghost_drags := by
  unfold pre_update at h
  rcases hl : hl_load_all s with _ | t <;> rw [hl] at h <;> simp_all
  obtain ⟨h1, h2, h3, h4, h5, _, _, _, h9, h10, h11⟩ := hl_load_all_frame s t hl
  subst h
  simp_all

/-- Fields the update cycle never writes. -/
theorem run_update_cycle_frame (T : ToolSpec α σ H A) (s s' : GT α σ H A)
    (coor : Coor) (h : run_update_cycle T s coor = some s') :
    s'.click_coor = s.click_coor ∧ s'.dragged = s.dragged ∧
    s'.update = s.update ∧ s'.scale = s.scale ∧
    s'.ghost_confirms = s.ghost_confirms ∧ s'.ghost_drags = s.ghost_drags := by
  unfold run_update_cycle at h
  rcases hp : pre_update s with _ | t <;> rw [hp] at h <;> simp_all
  obtain ⟨h1, h2, h3, h4, _, _, h7, h8⟩ := pre_update_frame s t hp
  subst h
  simp [hl_update_all, h1, h2, h3, h4, h7, h8]

/-- The update cycle succeeds exactly when the three baselines exist. -/
theorem run_update_cycle_isSome (T : ToolSpec α σ H A) (s : GT α σ H A)
    (coor : Coor) : (run_update_cycle T s coor).isSome ↔ inis_some s := by
  rw [← hl_load_all_isSome]
  unfold run_update_cycle pre_update
  rcases hl_load_all s with _ | t <;> simp

theorem run_confirm_cycle_eq (T : ToolSpec α σ H A) (s : GT α σ H A) :
    run_confirm_cycle T s =
      (match (after_confirm_action T s).confirm_next with
      | some h => hl_save_all { after_confirm_action T s with update := h }
      | none =>
        let t := hl_reset_all (after_confirm_action T s)
        let t := { t with update := T.update_basic }
        applyAct t (T.run_action t.on_reset t)) := by
  unfold run_confirm_cycle after_confirm_action
  rcases s.confirm with _ | a <;> simp

theorem after_confirm_action_facts (T : ToolSpec α σ H A) (s : GT α σ H A) :
    (after_confirm_action T s).click_coor = s.click_coor ∧
    (after_confirm_action T s).dragged = s.dragged ∧
    (after_confirm_action T s).update = s.update ∧
    (after_confirm_action T s).scale = s.scale ∧
    (after_confirm_action T s).drag = s.drag ∧
    (after_confirm_action T s).confirm_next = s.confirm_next ∧
    (after_confirm_action T s).hl_proposals = s.hl_proposals ∧
    (after_confirm_action T s).hl_selected = s.hl_selected ∧
    (after_confirm_action T s).hl_helpers = s.hl_helpers ∧
    (after_confirm_action T s).ghost_confirms = s.ghost_confirms + 1 ∧
    (after_confirm_action T s).ghost_drags = s.ghost_drags := by
  unfold after_confirm_action
  rcases s.confirm with _ | a <;> simp

/-- Fields the confirm cycle never writes, and the ghost count of confirm
cycles it performs. -/
theorem run_confirm_cycle_frame (T : ToolSpec α σ H A) (s : GT α σ H A) :
    (run_confirm_cycle T s).click_coor = s.click_coor ∧
    (run_confirm_cycle T s).dragged = s.dragged ∧
    (run_confirm_cycle T s).scale = s.scale ∧
    (run_confirm_cycle T s).ghost_confirms = s.ghost_confirms + 1 ∧
    (run_confirm_cycle T s).ghost_drags = s.ghost_drags := by
  obtain ⟨h1, h2, h3, h4, h5, h6, h7, h8, h9, h10, h11⟩ :=
    after_confirm_action_facts T s
  rw [run_confirm_cycle_eq]
  rcases hc : (after_confirm_action T s).confirm_next with _ | h <;>
    simp_all [hl_save_all, hl_reset_all]

/-- After a confirm cycle all three baselines exist (both the chained
`_hl_save` and the resetting `_hl_reset` create them). -/
theorem run_confirm_cycle_inis (T : ToolSpec α σ H A) (s : GT α σ H A) :
    inis_some (run_confirm_cycle T s) := by
  rw [run_confirm_cycle_eq]
  rcases hc : (after_confirm_action T s).confirm_next with _ | h <;>
    simp [inis_some, hl_save_all, hl_reset_all]

/-- The `reset` always succeeds, and the state it produces. -/
theorem reset_facts (T : ToolSpec α σ H A) (s : GT α σ H A) :
    (reset T s).isSome ∧ ∀ s', reset T s = some s' →
      s'.click_coor = none ∧ s'.dragged = false ∧
      s'.update = T.update_basic ∧ s'.drag = none ∧ s'.confirm = none ∧
      s'.confirm_next = none ∧ s'.hl_proposals.ini = some [] ∧
      s'.hl_selected.ini = some [] ∧ s'.hl_helpers.ini = some [] ∧
      s'.hl_proposals.l = [] ∧ s'.hl_selected.l = [] ∧ s'.hl_helpers.l = [] ∧
      s'.scale = s.scale ∧ s'.ghost_confirms = s.ghost_confirms ∧
      s'.ghost_drags = s.ghost_drags := by
  unfold reset pre_update
  dsimp only
  rw [hl_load_all_eq _ [] [] [] rfl rfl rfl]
  refine ⟨by simp, ?_⟩
  intro s' h
  simp only [Option.map_some'] at h
  rw [Option.some_inj] at h
  subst h
  simp [hl_update_all, hl_reset_all, HighlightList.reset_save]

/-- The running minimum of Python `min` stays in the candidate list. -/
theorem foldl_min_choice {γ : Type} (key : γ → ℚ) (l : List γ) (x : γ) :
    l.foldl (fun acc y => if key y < key acc then y else acc) x = x ∨
    l.foldl (fun acc y => if key y < key acc then y else acc) x ∈ l := by
  induction l generalizing x with
  | nil => simp
  | cons y ys ih =>
    simp only [List.foldl_cons]
    by_cases hc : key y < key x
    · rw [if_pos hc]
      rcases ih y with h | h
      · right
        rw [h]
        exact List.mem_cons_self _ _
      · right
        exact List.mem_cons_of_mem _ h
    · rw [if_neg hc]
      rcases ih x with h | h
      · left
        exact h
      · right
        exact List.mem_cons_of_mem _ h

/-- The running minimum of Python `min` has minimal key. -/
theorem foldl_min_le {γ : Type} (key : γ → ℚ) (l : List γ) (x : γ) :
    key (l.foldl (fun acc y => if key y < key acc then y else acc) x) ≤ key x ∧
    ∀ y ∈ l,
      key (l.foldl (fun acc y => if key y < key acc then y else acc) x) ≤ key y := by
  induction l generalizing x with
  | nil => simp
  | cons z zs ih =>
    simp only [List.foldl_cons]
    by_cases hc : key z < key x
    · rw [if_pos hc]
      obtain ⟨h1, h2⟩ := ih z
      refine ⟨le_trans h1 hc.le, ?_⟩
      intro y hy
      rcases List.mem_cons.mp hy with rfl | hy
      · exact h1
      · exact h2 y hy
    · rw [if_neg hc]
      obtain ⟨h1, h2⟩ := ih x
      refine ⟨h1, ?_⟩
      intro y hy
      rcases List.mem_cons.mp hy with rfl | hy
      · exact le_trans h1 (not_lt.mp hc)
      · exact h2 y hy

theorem pyMinD_cons {γ : Type} (key : γ → ℚ) (d x : γ) (xs : List γ) :
    pyMinD key d (x :: xs) =
      xs.foldl (fun acc y => if key y < key acc then y else acc) x := rfl

theorem pyMinD_cons_mem {γ : Type} (key : γ → ℚ) (d x : γ) (xs : List γ) :
    pyMinD key d (x :: xs) ∈ x :: xs := by
  rw [pyMinD_cons]
  rcases foldl_min_choice key xs x with h | h
  · rw [h]
    exact List.mem_cons_self _ _
  · exact List.mem_cons_of_mem _ h

theorem pyMinD_cons_min {γ : Type} (key : γ → ℚ) (d x : γ) (xs : List γ) :
    ∀ y ∈ x :: xs, key (pyMinD key d (x :: xs)) ≤ key y := by
  intro y hy
  rw [pyMinD_cons]
  obtain ⟨h1, h2⟩ := foldl_min_le key xs x
  rcases List.mem_cons.mp hy with rfl | hy
  · exact h1
  · exact h2 y hy

@[simp] theorem filtered_candidates_none {α β : Type} (l : List (α × β)) :
    filtered_candidates l none = l := rfl

@[simp] theorem filtered_candidates_some {α β : Type} (l : List (α × β))
    (f : α → β → Bool) :
    filtered_candidates l (some f) = l.filter (fun p => f p.1 p.2) := rfl

/-- The `coor_to_obj` with a filter is `coor_to_obj` on the filtered list. -/
theorem coor_to_obj_filter_eq {α β : Type} (dist : β → Coor → ℚ) (scale : ℚ)
    (coor : Coor) (l : List (α × β)) (f : α → β → Bool) :
    coor_to_obj dist scale coor l (some f) =
      coor_to_obj dist scale coor (l.filter (fun p => f p.1 p.2)) none := rfl

/-- The behaviour of `coor_to_obj` on an explicit candidate list. -/
theorem coor_to_obj_none_spec {α β : Type} (dist : β → Coor → ℚ) (scale : ℚ)
    (coor : Coor) (fl : List (α × β)) :
    ((∀ p ∈ fl, find_radius scale ≤ dist p.2 coor) →
      coor_to_obj dist scale coor fl none = (none, none)) ∧
    (∀ o n, coor_to_obj dist scale coor fl none = (some o, some n) →
      (o, n) ∈ fl ∧ dist n coor < find_radius scale ∧
      ∀ p ∈ fl, dist n coor ≤ dist p.2 coor) ∧
    (∀ p ∈ fl, dist p.2 coor < find_radius scale →
      (coor_to_obj dist scale coor fl none).1.isSome = true ∧
      (coor_to_obj dist scale coor fl none).2.isSome = true) := by
  cases fl with
  | nil =>
    refine ⟨fun _ => ?_, fun o n h => ?_, fun p hp => absurd hp (by simp)⟩
    · unfold coor_to_obj pyMinD
      simp only [filtered_candidates_none, List.map_nil]
      split <;> rfl
    · unfold coor_to_obj pyMinD at h
      simp only [filtered_candidates_none, List.map_nil] at h
      split at h <;> simp at h
  | cons hd tl =>
    have hobj : coor_to_obj dist scale coor (hd :: tl) none =
        (let m := pyMinD (fun x => x.1) (0, (none, none))
          ((hd :: tl).map (fun p => (dist p.2 coor, (some p.1, some p.2))))
         if find_radius scale ≤ m.1 then (none, none) else m.2) := rfl
    rw [hobj]
    simp only [List.map_cons]
    set g : (α × β) → ℚ × (Option α × Option β) :=
      fun p => (dist p.2 coor, (some p.1, some p.2)) with hg
    set m := pyMinD (fun x : ℚ × (Option α × Option β) => x.1)
      ((0 : ℚ), ((none : Option α), (none : Option β)))
      (g hd :: tl.map g) with hm
    have hmem : m ∈ g hd :: tl.map g := pyMinD_cons_mem _ _ _ _
    have hmin : ∀ y ∈ g hd :: tl.map g, m.1 ≤ y.1 :=
      pyMinD_cons_min (fun x : ℚ × (Option α × Option β) => x.1) _ _ _
    rw [← List.map_cons] at hmem hmin
    obtain ⟨q, hq, hgq⟩ := List.mem_map.mp hmem
    have hmin' : ∀ p ∈ hd :: tl, m.1 ≤ dist p.2 coor := by
      intro p hp
      exact hmin (g p) (List.mem_map.mpr ⟨p, hp, rfl⟩)
    have hm1 : m.1 = dist q.2 coor := by rw [← hgq]
    have hm2 : m.2 = (some q.1, some q.2) := by rw [← hgq]
    refine ⟨fun hall => ?_, fun o n h => ?_, fun p hp hlt => ?_⟩
    · have : find_radius scale ≤ m.1 := by
        rw [hm1]
        exact hall q hq
      simp only [this, if_pos]
    · by_cases hr : find_radius scale ≤ m.1
      · rw [if_pos hr] at h
        simp at h
      · rw [if_neg hr] at h
        rw [hm2] at h
        obtain ⟨ho, hn⟩ := Prod.mk.injEq _ _ _ _ ▸ h
        obtain ho := Option.some_inj.mp ((Prod.mk.injEq _ _ _ _).mp h).1
        obtain hn := Option.some_inj.mp ((Prod.mk.injEq _ _ _ _).mp h).2
        subst ho
        subst hn
        refine ⟨by simpa using hq, ?_, ?_⟩
        · rw [← hm1]
          exact not_le.mp hr
        · intro p hp
          rw [← hm1]
          exact hmin' p hp
    · have hr : ¬ (find_radius scale ≤ m.1) := by
        refine not_le.mpr (lt_of_le_of_lt (hmin' p hp) hlt)
      rw [if_neg hr, hm2]
      exact ⟨rfl, rfl⟩

@[simp] theorem applyEff_tst (s : GT α σ H A) (e : TEffect α σ H A) :
    (applyEff s e).tst = e.tst := rfl

@[simp] theorem applyEff_drag (s : GT α σ H A) (e : TEffect α σ H A) :
    (applyEff s e).drag = e.drag := rfl

@[simp] theorem applyEff_confirm (s : GT α σ H A) (e : TEffect α σ H A) :
    (applyEff s e).confirm = e.confirm := rfl

@[simp] theorem applyEff_confirm_next (s : GT α σ H A) (e : TEffect α σ H A) :
    (applyEff s e).confirm_next = e.confirm_next := rfl

@[simp] theorem applyEff_hl_proposals (s : GT α σ H A) (e : TEffect α σ H A) :
    (applyEff s e).hl_proposals = e.hl_proposals := rfl

@[simp] theorem applyEff_hl_selected (s : GT α σ H A) (e : TEffect α σ H A) :
    (applyEff s e).hl_selected = e.hl_selected := rfl

@[simp] theorem applyEff_hl_helpers (s : GT α σ H A) (e : TEffect α σ H A) :
    (applyEff s e).hl_helpers = e.hl_helpers := rfl

@[simp] theorem applyEff_on_reset (s : GT α σ H A) (e : TEffect α σ H A) :
    (applyEff s e).on_reset = e.on_reset := rfl

/-- A successful update cycle in closed form: the handler runs on the
reloaded state and its effect is written back. -/
theorem run_update_cycle_some (T : ToolSpec α σ H A) (s : GT α σ H A)
    (coor : Coor) (ip iq ih : List (α × Bool))
    (hp : s.hl_proposals.ini = some ip) (hq : s.hl_selected.ini = some iq)
    (hh : s.hl_helpers.ini = some ih) :
    run_update_cycle T s coor =
      some (hl_update_all (applyEff (pre_loaded s ip iq ih)
        (T.run_update s.update coor (pre_loaded s ip iq ih)))) := by
  unfold run_update_cycle pre_update
  rw [hl_load_all_eq s ip iq ih hp hq hh]
  rfl

/-- The tolerance radius at unit scale, in closed form (`Rat.inv` is
irreducible, so quotients are evaluated once here and reused). -/
theorem find_radius_one : find_radius 1 = 20 := by
  norm_num [find_radius, find_radius_pix]

theorem radius_one_gt_three : (3 : ℚ) < find_radius 1 := by
  rw [find_radius_one]
  norm_num

theorem radius_one_le_far :
    ∀ p ∈ filtered_candidates [((1 : ℕ), (25 : ℚ)), (2, 30)] none,
      find_radius 1 ≤ p.2 := by
  intro p hp
  simp only [filtered_candidates_none, List.mem_cons, List.not_mem_nil,
    or_false] at hp
  rw [find_radius_one]
  rcases hp with rfl | rfl
  · norm_num
  · norm_num

/-- The `show_all_mode` flag after `set_show_all` is the requested value. -/
theorem set_show_all_mode {β : Type} (v : HideVis β) (b : Bool) :
    (set_show_all v b).show_all_mode = b := by
  unfold set_show_all
  split
  · rfl
  · rename_i hc
    simpa using hc

/-- The `set_show_all` leaves all hidden flags unchanged. -/
theorem set_show_all_hidden {β : Type} (v : HideVis β) (b : Bool) (g : ℕ) :
    (set_show_all v b).gi_to_hidden g = v.gi_to_hidden g := by
  unfold set_show_all
  split <;> rfl

/-- The `unhide` clears the object's hidden flag. -/
theorem unhide_obj_hidden {β : Type} (v : HideVis β) (gi : ℕ) :
    (unhide_obj v gi).gi_to_hidden gi = false := by
  unfold unhide_obj
  rw [set_show_all_hidden]
  simp

/-- The `unhide` turns show-all mode off. -/
theorem unhide_obj_show_all {β : Type} (v : HideVis β) (gi : ℕ) :
    (unhide_obj v gi).show_all_mode = false :=
  set_show_all_mode _ _

/-- The hide tool's update handlers write neither the external state nor
the drag handler. -/
theorem hideTool_run_update_preserve {β : Type} (dist : β → Coor → ℚ)
    (h : HideH) (coor : Coor) (s : HideGT β) :
    ((hideTool dist).run_update h coor s).tst = s.tst ∧
    ((hideTool dist).run_update h coor s).drag = s.drag ∧
    ((hideTool dist).run_update h coor s).on_reset = s.on_reset := by
  cases h
  · unfold hideTool
    dsimp only
    rcases hx : (hide_coor_to_pcl dist s.scale s.tst coor none).1 with _ | o
    · exact ⟨rfl, rfl, rfl⟩
    · exact ⟨rfl, rfl, rfl⟩
  · unfold hideTool
    dsimp only
    rcases hx : (hide_coor_to_pcl dist s.scale s.tst coor
        (some (fun gi _ => s.tst.gi_to_hidden gi))).1 with _ | o
    · exact ⟨rfl, rfl, rfl⟩
    · exact ⟨rfl, rfl, rfl⟩

/-- The basic hide handler on empty space: chain to `update_unhide` behind a
`set_show_all(True)` confirm. -/
theorem hideTool_basic_none {β : Type} (dist : β → Coor → ℚ) (coor : Coor)
    (s : HideGT β)
    (hp : (hide_coor_to_pcl dist s.scale s.tst coor none).1 = none) :
    (hideTool dist).run_update HideH.basic coor s =
      { s.eff with
        confirm := some (HideA.setShowAllA true)
        confirm_next := some HideH.unhide } := by
  unfold hideTool
  dsimp only
  rw [hp]

/-- The unhide handler on a hidden object: select it and prepare `unhide`. -/
theorem hideTool_unhide_some {β : Type} (dist : β → Coor → ℚ) (coor : Coor)
    (s : HideGT β) (o : ℕ)
    (hp : (hide_coor_to_pcl dist s.scale s.tst coor
      (some (fun gi _ => s.tst.gi_to_hidden gi))).1 = some o) :
    (hideTool dist).run_update HideH.unhide coor s =
      { s.eff with
        hl_selected := s.hl_selected.add [o] true
        confirm := some (HideA.unhideA o) } := by
  unfold hideTool
  dsimp only
  rw [hp]

theorem hideTool_action_setShowAll {β : Type} (dist : β → Coor → ℚ) (b : Bool)
    (s : HideGT β) :
    (hideTool dist).run_action (HideA.setShowAllA b) s =
      { on_reset := s.on_reset, tst := set_show_all s.tst b } := rfl

theorem hideTool_action_unhide {β : Type} (dist : β → Coor → ℚ) (gi : ℕ)
    (s : HideGT β) :
    (hideTool dist).run_action (HideA.unhideA gi) s =
      { on_reset := s.on_reset, tst := unhide_obj s.tst gi } := rfl

theorem hideTool_action_onReset {β : Type} (dist : β → Coor → ℚ)
    (s : HideGT β) :
    (hideTool dist).run_action HideA.onResetA s =
      { on_reset := s.on_reset, tst := set_show_all s.tst false } := rfl

/-- A reset of the hide tool (whose reset hook is `set_show_all(False)`)
turns show-all mode off. -/
theorem reset_hide_show_all {β : Type} (dist : β → Coor → ℚ) (s : HideGT β)
    (hor : s.on_reset = HideA.onResetA) :
    ∀ r, reset (hideTool dist) s = some r → r.tst.show_all_mode = false := by
  intro r hr
  unfold reset pre_update at hr
  dsimp only at hr
  rw [hl_load_all_eq _ [] [] [] rfl rfl rfl] at hr
  simp only [Option.map_some', Option.some_inj] at hr
  rw [← hr]
  simp [hor, hideTool, set_show_all_mode, hl_update_all, hl_reset_all]

/-- A hide-tool update cycle leaves the external state unchanged. -/
theorem run_update_cycle_hide_tst {β : Type} (dist : β → Coor → ℚ)
    (s : HideGT β) (coor : Coor) :
    ∀ r, run_update_cycle (hideTool dist) s coor = some r → r.tst = s.tst := by
  intro r hr
  unfold run_update_cycle at hr
  rcases hp : pre_update s with _ | u <;> rw [hp] at hr
  · cases hr
  · simp only [Option.map_some', Option.some_inj] at hr
    obtain ⟨_, _, _, _, hu5, _, _, _⟩ := pre_update_frame s u hp
    rw [← hr]
    have ht := (hideTool_run_update_preserve dist u.update coor u).1
    simp [hl_update_all, ht, hu5]

theorem radius_one_pos : ¬ (find_radius 1 ≤ 0) := by
  rw [find_radius_one]
  norm_num

/-- Over the empty scene the hide tool's pick finds nothing. -/
theorem hGT1_pick :
    (hide_coor_to_pcl dist0 hGT1.scale hGT1.tst ((0 : ℚ), (0 : ℚ)) none).1 =
      none := by
  simp [hide_coor_to_pcl, coor_to_pcl_lists, coor_to_obj, coor_to_attempts,
    pyMinD, hVis1, hGT1, mkGT, filtered_candidates, dist0]

/-- Over the hidden-object scene, the hidden-filtered pick finds object 7. -/
theorem hGT2_pick :
    (hide_coor_to_pcl dist0 hGT2.scale hGT2.tst ((0 : ℚ), (0 : ℚ))
      (some (fun gi _ => hGT2.tst.gi_to_hidden gi))).1 = some 7 := by
  simp [hide_coor_to_pcl, coor_to_pcl_lists, coor_to_obj, coor_to_attempts,
    pyMinD, hVis2, hGT2, mkGT, filtered_candidates, dist0, radius_one_pos]

/-- The move tool's drag handler on an intersection step: store the
recomputed index and, when two candidates exist, propose the non-selected
one. -/
theorem moveTool_moveObj_eval (dist : Coor → Coor → ℚ) (nh : ℚ → Coor → Bool)
    (lookup : ℕ → MTool × ℚ) (g : ℚ) (c : Coor) (s : MoveGT) :
    (moveTool dist nh lookup).run_update (MoveH.moveObj MTool.intersection g)
      c s =
      (match s.tst.cands with
       | some cs =>
         { s.eff with
           tst := { s.tst with hyper_i := nh g c }
           hl_proposals := s.hl_proposals.add
             [MoveE.pt (if nh g c then cs.1 else cs.2)] false }
       | none => { s.eff with tst := { s.tst with hyper_i := nh g c } }) := by
  unfold moveTool
  dsimp only
  rcases s.tst.cands with _ | cs
  · rfl
  · rfl

/-! ## Claims -/

/-- Claim C4: for every engine state in which a press anchor is recorded,
`button_press(coor)` leaves the engine in exactly the state produced by a
full `reset()` (the cancel operation) followed by a fresh
`button_press(coor)` from the unpressed state the reset produces. -/
theorem C4_press_reentry (T : ToolSpec α σ H A) (s : GT α σ H A) (coor : Coor)
    (h : s.click_coor.isSome = true) :
    button_press T s coor = (reset T s).bind (fun t => button_press T t coor) := by
  unfold button_press
  rw [if_pos h]
  rcases hr : reset T s with _ | t
  · simp
  · have ht : t.click_coor = none := ((reset_facts T s).2 t hr).1
    simp [ht]

/-- Witness for C4 at the pressed demo state `gtA`. -/
theorem C4_press_reentry_witness :
    button_press demoDragTool gtA (1, 1) =
      (reset demoDragTool gtA).bind (fun t => button_press demoDragTool t (1, 1)) :=
  C4_press_reentry demoDragTool gtA (1, 1) (by decide)

/-- Claim C2: the confirm cycle first runs the confirm action when one is
set (the state afterwards is `after_confirm_action`); then, when a next
update handler is set, it switches the update handler to it and commits all
three overlays, so that exactly the sticky entries of each working list
become the new baselines (working lists unchanged); otherwise it clears all
three baselines, restores the tool's basic handler, and invokes the reset
hook on that reset state. -/
theorem C2_run_confirm (T : ToolSpec α σ H A) (s1 s2 : GT α σ H A) (nh : H)
    (hc : (after_confirm_action T s1).confirm_next = some nh)
    (hn : (after_confirm_action T s2).confirm_next = none) :
    ((run_confirm_cycle T s1).update = nh ∧
      (run_confirm_cycle T s1).hl_proposals.ini =
        some (s1.hl_proposals.l.filter (fun e => e.2)) ∧
      (run_confirm_cycle T s1).hl_selected.ini =
        some (s1.hl_selected.l.filter (fun e => e.2)) ∧
      (run_confirm_cycle T s1).hl_helpers.ini =
        some (s1.hl_helpers.l.filter (fun e => e.2)) ∧
      (run_confirm_cycle T s1).hl_proposals.l = s1.hl_proposals.l ∧
      (run_confirm_cycle T s1).hl_selected.l = s1.hl_selected.l ∧
      (run_confirm_cycle T s1).hl_helpers.l = s1.hl_helpers.l ∧
      (run_confirm_cycle T s1).tst = (after_confirm_action T s1).tst) ∧
    ((run_confirm_cycle T s2).hl_proposals.ini = some [] ∧
      (run_confirm_cycle T s2).hl_selected.ini = some [] ∧
      (run_confirm_cycle T s2).hl_helpers.ini = some [] ∧
      (run_confirm_cycle T s2).update = T.update_basic ∧
      run_confirm_cycle T s2 =
        (let t := { hl_reset_all (after_confirm_action T s2) with
          update := T.update_basic }
         applyAct t (T.run_action t.on_reset t))) := by
  obtain ⟨a1, a2, a3, a4, a5, a6, a7, a8, a9, a10, a11⟩ :=
    after_confirm_action_facts T s1
  constructor
  · rw [run_confirm_cycle_eq, hc]
    simp [hl_save_all, a7, a8, a9]
  · rw [run_confirm_cycle_eq, hn]
    simp [hl_reset_all]

/-- Witness for C2: the chained demo state switches to the chained handler
and commits exactly the sticky entries; the plain demo state resets. -/
theorem C2_run_confirm_witness :
    (run_confirm_cycle demoDragTool gtChain).update = DH.other ∧
    (run_confirm_cycle demoDragTool gtChain).hl_proposals.ini =
      some (gtChain.hl_proposals.l.filter (fun e => e.2)) ∧
    (run_confirm_cycle demoDragTool gtC).hl_selected.ini = some [] :=
  ⟨(C2_run_confirm demoDragTool gtChain gtC DH.other (by decide) (by decide)).1.1,
   (C2_run_confirm demoDragTool gtChain gtC DH.other (by decide) (by decide)).1.2.1,
   (C2_run_confirm demoDragTool gtChain gtC DH.other (by decide) (by decide)).2.2.1⟩

/-- Claim C10 counterexample: on a pressed state with the button reported
up, `motion` is not merely the full reset the claim describes — after the
reset the engine also runs a normal update cycle at the new coordinate,
which here installs a confirm action, absent from the plain reset state. -/
theorem C10_counterexample :
    motion demoConfirmTool gtA (2, 2) false ≠ reset demoConfirmTool gtA ∧
    (motion demoConfirmTool gtA (2, 2) false).map (fun r => r.confirm) =
      some (some true) ∧
    (reset demoConfirmTool gtA).map (fun r => r.confirm) = some none := by
  decide

/-- Claim C10 (amended): with the button reported up, a motion on a pressed
state performs a full reset followed by a normal update cycle at the
reported coordinate; consequently, after any motion event with the button
up, no press anchor remains recorded. -/
theorem C10_motion_unpressed (T : ToolSpec α σ H A) (s1 s2 : GT α σ H A)
    (coor1 coor2 : Coor) (cc : Coor) (h1 : s1.click_coor = some cc) :
    motion T s1 coor1 false =
      (reset T s1).bind (fun t => run_update_cycle T t coor1) ∧
    (∀ r, motion T s2 coor2 false = some r → r.click_coor = none) := by
  constructor
  · unfold motion
    rw [h1]
    simp only [Bool.not_false, if_pos]
    rcases hr : reset T s1 with _ | t
    · simp
    · obtain ⟨t1, t2, _⟩ := (reset_facts T s1).2 t hr
      simp [t1, t2]
  · intro r hr
    unfold motion at hr
    rcases hc : s2.click_coor with _ | cc2 <;> rw [hc] at hr
    · simp only [hc, Option.some_bind, Option.isNone_none, Bool.true_or,
        if_pos] at hr
      exact ((run_update_cycle_frame T s2 r coor2 hr).1).trans hc
    · simp only [Bool.not_false, if_pos] at hr
      rcases hr2 : reset T s2 with _ | t <;> rw [hr2] at hr
      · simp at hr
      · obtain ⟨t1, t2, _⟩ := (reset_facts T s2).2 t hr2
        simp only [Option.some_bind, t1, t2, Option.isNone_none, Bool.true_or,
          if_pos] at hr
        exact ((run_update_cycle_frame T t r coor2 hr).1).trans t1

/-- Witness for C10 (amended) at the pressed demo state `gtA`. -/
theorem C10_motion_unpressed_witness :
    motion demoConfirmTool gtA (2, 2) false =
      (reset demoConfirmTool gtA).bind
        (fun t => run_update_cycle demoConfirmTool t (2, 2)) :=
  (C10_motion_unpressed demoConfirmTool gtA gtA (2, 2) (2, 2) (0, 0) rfl).1

/-- Claim C1: for every candidate list, cursor coordinate and optional
filter, `coor_to_obj` returns a candidate passing the filter of minimal
distance from the cursor, and returns `(none, none)` exactly when the
filtered candidate list is empty or the minimal distance is `>=` the
tolerance radius; the tolerance equals the fixed pixel radius 20 divided by
the viewport scale, recomputed from the scale at every picking call (in the
pure embedding, `find_radius` is a function of the scale, evaluated inside
every `coor_to_obj` call). -/
theorem C1_coor_to_obj (α β : Type) (dist : β → Coor → ℚ) (scale : ℚ)
    (coor : Coor) (l : List (α × β)) (filter_f : Option (α → β → Bool)) :
    (find_radius_pix = 20 ∧ find_radius scale = 20 / scale) ∧
    ((∀ p ∈ filtered_candidates l filter_f,
        find_radius scale ≤ dist p.2 coor) →
      coor_to_obj dist scale coor l filter_f = (none, none)) ∧
    (∀ o n, coor_to_obj dist scale coor l filter_f = (some o, some n) →
      (o, n) ∈ filtered_candidates l filter_f ∧
      dist n coor < find_radius scale ∧
      ∀ p ∈ filtered_candidates l filter_f, dist n coor ≤ dist p.2 coor) ∧
    (∀ p ∈ filtered_candidates l filter_f, dist p.2 coor < find_radius scale →
      (coor_to_obj dist scale coor l filter_f).1.isSome = true ∧
      (coor_to_obj dist scale coor l filter_f).2.isSome = true) := by
  refine ⟨⟨rfl, rfl⟩, ?_⟩
  cases filter_f with
  | none =>
    simpa only [filtered_candidates_none] using
      coor_to_obj_none_spec dist scale coor l
  | some f =>
    simp only [filtered_candidates_some, coor_to_obj_filter_eq]
    exact coor_to_obj_none_spec dist scale coor (l.filter (fun p => f p.1 p.2))

/-- Witness for C1: with two candidates at distances 5 and 3 and unit scale
the picker finds one; with both at distances `>= 20` it returns none. -/
theorem C1_coor_to_obj_witness :
    (coor_to_obj (fun d _ => d) 1 (0, 0)
      [((1 : ℕ), (5 : ℚ)), (2, 3)] none).1.isSome = true ∧
    coor_to_obj (fun d _ => d) 1 (0, 0)
      [((1 : ℕ), (25 : ℚ)), (2, 30)] none = (none, none) :=
  ⟨((C1_coor_to_obj ℕ ℚ (fun d _ => d) 1 (0, 0) [(1, 5), (2, 3)]
      none).2.2.2 (2, 3) (by decide) radius_one_gt_three).1,
   (C1_coor_to_obj ℕ ℚ (fun d _ => d) 1 (0, 0) [(1, 25), (2, 30)]
      none).2.1 radius_one_le_far⟩

/-- Claim C6: the sequential-attempt combinator returns the result of the
first sub-picker in order whose object component is not none, and
`(none, none)` when every sub-picker returns none. -/
theorem C6_coor_to_attempts (α β : Type) (coor : Coor)
    (sels pre post : List (Coor → Option α × Option β))
    (sel : Coor → Option α × Option β)
    (hall : ∀ s ∈ sels, (s coor).1 = none)
    (hpre : ∀ s ∈ pre, (s coor).1 = none)
    (hsel : (sel coor).1.isSome = true) :
    coor_to_attempts coor sels = (none, none) ∧
    coor_to_attempts coor (pre ++ sel :: post) = sel coor := by
  have part1 : ∀ (ls : List (Coor → Option α × Option β)),
      (∀ s ∈ ls, (s coor).1 = none) →
      coor_to_attempts coor ls = (none, none) := by
    intro ls
    induction ls with
    | nil => intro _; rfl
    | cons a as ih =>
      intro hn
      have ha : (a coor).1 = none := hn a (List.mem_cons_self a as)
      simp only [coor_to_attempts, ha, Option.isSome_none, Bool.false_eq_true,
        if_false]
      exact ih (fun s hs => hn s (List.mem_cons_of_mem a hs))
  refine ⟨part1 sels hall, ?_⟩
  clear hall
  induction pre with
  | nil =>
    simp only [List.nil_append, coor_to_attempts, hsel, if_true]
  | cons a as ih =>
    have ha : (a coor).1 = none := hpre a (List.mem_cons_self a as)
    simp only [List.cons_append, coor_to_attempts, ha, Option.isSome_none,
      Bool.false_eq_true, if_false]
    exact ih (fun s hs => hpre s (List.mem_cons_of_mem a hs))

/-- Witness for C6: a failing picker followed by a succeeding one yields the
second result; two failing pickers yield none. -/
theorem C6_coor_to_attempts_witness :
    coor_to_attempts (0, 0)
      [fun _ => ((none : Option ℕ), (none : Option ℚ))] = (none, none) ∧
    coor_to_attempts (0, 0)
      ([fun _ => ((none : Option ℕ), (none : Option ℚ))] ++
        (fun _ => (some 4, some 1)) :: []) = (some 4, some 1) :=
  C6_coor_to_attempts ℕ ℚ (0, 0)
    [fun _ => (none, none)] [fun _ => (none, none)] []
    (fun _ => (some 4, some 1))
    (by intro s hs; simp at hs; subst hs; rfl)
    (by intro s hs; simp at hs; subst hs; rfl)
    rfl

/-- Claim C3: dragging activates iff a press anchor is recorded, the
movement from the press anchor reaches `distance_to_drag_pix / scale`, and a
drag handler is set (the `assert` fires — `none` — when the movement
qualifies with no drag handler); a non-qualifying pressed motion leaves the
state completely unchanged (so the drag handler set at press time persists
and never activates), and a release from a pressed state runs exactly one
confirm cycle and no drag activation, while a press that arms a drag
handler (its result still carries the press anchor) runs no confirm cycle. -/
theorem C3_drag_activation (T : ToolSpec α σ H A) (s1 s2 s3 s4 s5 : GT α σ H A)
    (c1 c2 c3 c4 c5 cc1 cc2 cc3 : Coor) (hdl1 : H)
    (h1c : s1.click_coor = some cc1) (h1d : s1.dragged = false)
    (h1h : s1.drag = some hdl1)
    (h1q : norm_ge (c1.1 - cc1.1, c1.2 - cc1.2)
      (T.distance_to_drag_pix / s1.scale) = true)
    (h1i : inis_some s1)
    (h2c : s2.click_coor = some cc2) (h2d : s2.dragged = false)
    (h2q : norm_ge (c2.1 - cc2.1, c2.2 - cc2.2)
      (T.distance_to_drag_pix / s2.scale) = false)
    (h3c : s3.click_coor = some cc3) (h3d : s3.dragged = false)
    (h3h : s3.drag = none)
    (h3q : norm_ge (c3.1 - cc3.1, c3.2 - cc3.2)
      (T.distance_to_drag_pix / s3.scale) = true)
    (h4c : s4.click_coor.isSome = true) :
    (motion T s1 c1 true =
      run_update_cycle T { s1 with
        update := hdl1, dragged := true,
        ghost_drags := s1.ghost_drags + 1 } c1 ∧
     (motion T s1 c1 true).isSome = true ∧
     (∀ r, motion T s1 c1 true = some r → r.dragged = true ∧
       r.update = hdl1 ∧ r.ghost_drags = s1.ghost_drags + 1 ∧
       r.ghost_confirms = s1.ghost_confirms)) ∧
    motion T s2 c2 true = some s2 ∧
    motion T s3 c3 true = none ∧
    (∀ r, button_release T s4 c4 = some r →
      r.ghost_confirms = s4.ghost_confirms + 1 ∧
      r.ghost_drags = s4.ghost_drags ∧ r.dragged = false ∧
      r.click_coor = none) ∧
    (∀ r, button_press T s5 c5 = some r → r.click_coor = some c5 →
      r.ghost_confirms = s5.ghost_confirms ∧
      r.ghost_drags = s5.ghost_drags) := by
  have hm1 : motion T s1 c1 true =
      run_update_cycle T { s1 with
        update := hdl1, dragged := true,
        ghost_drags := s1.ghost_drags + 1 } c1 := by
    unfold motion
    rw [h1c]
    simp [h1d, h1q, h1h, h1c]
  refine ⟨⟨hm1, ?_, ?_⟩, ?_, ?_, ?_, ?_⟩
  · rw [hm1, run_update_cycle_isSome]
    exact h1i
  · intro r hr
    rw [hm1] at hr
    obtain ⟨f1, f2, f3, f4, f5, f6⟩ := run_update_cycle_frame T _ r c1 hr
    exact ⟨f2, f3, f6, f5⟩
  · unfold motion
    rw [h2c]
    simp [h2d, h2q, h2c]
  · unfold motion
    rw [h3c]
    simp [h3d, h3q, h3h]
  · intro r hr
    unfold button_release at hr
    rw [if_pos h4c] at hr
    obtain ⟨f1, f2, f3, f4, f5, f6⟩ := run_update_cycle_frame T _ r c4 hr
    obtain ⟨g1, g2, g3, g4, g5⟩ := run_confirm_cycle_frame T
      { s4 with click_coor := none, dragged := false }
    refine ⟨?_, ?_, ?_, ?_⟩
    · rw [f5, g4]
    · rw [f6, g5]
    · rw [f2, g2]
    · rw [f1, g1]
  · intro r hr hclick
    unfold button_press at hr
    have key : ∀ t, t.click_coor = none → button_press_core T t c5 = some r →
        r.click_coor = some c5 →
        r.ghost_confirms = t.ghost_confirms ∧ r.ghost_drags = t.ghost_drags := by
      intro t ht hcore hrc
      unfold button_press_core at hcore
      rcases hu : run_update_cycle T t c5 with _ | u
      · rw [hu] at hcore
        cases hcore
      · rw [hu] at hcore
        simp only [Option.some_bind] at hcore
        obtain ⟨f1, f2, f3, f4, f5, f6⟩ := run_update_cycle_frame T t u c5 hu
        rcases hd : u.drag with _ | dh
        · rw [hd] at hcore
          obtain ⟨e1, e2, e3, e4, e5, e6⟩ :=
            run_update_cycle_frame T _ r c5 hcore
          rw [e1] at hrc
          obtain ⟨g1, g2, g3, g4, g5⟩ := run_confirm_cycle_frame T u
          rw [g1, f1, ht] at hrc
          cases hrc
        · rw [hd] at hcore
          dsimp only at hcore
          have heq := Option.some_inj.mp hcore
          rw [← heq]
          rcases hds : u.drag_start with _ | da <;>
            simp [hds, hl_save_all, f5, f6]
    rcases hg : s5.click_coor with _ | cg
    · rw [hg] at hr
      simp only [Option.isSome_none, Bool.false_eq_true, if_false,
        Option.some_bind] at hr
      exact key s5 hg hr hclick
    · rw [hg] at hr
      simp only [Option.isSome_some, if_true, Option.some_bind] at hr
      rcases hre : reset T s5 with _ | t
      · rw [hre] at hr
        cases hr
      · rw [hre] at hr
        simp only [Option.some_bind] at hr
        obtain ⟨r1, r2, _, _, _, _, _, _, _, _, _, _, _, r14, r15⟩ :=
          (reset_facts T s5).2 t hre
        obtain ⟨k1, k2⟩ := key t r1 hr hclick
        exact ⟨k1.trans r14, k2.trans r15⟩

/-- Movement of 10 against threshold 5/1 qualifies for dragging. -/
theorem demo_drag_far : norm_ge ((10 : ℚ) - 0, (0 : ℚ) - 0) ((5 : ℚ) / 1) = true := by
  simp only [norm_ge, Bool.or_eq_true, decide_eq_true_eq]
  right
  norm_num

/-- Movement of 1 against threshold 5/1 does not qualify for dragging. -/
theorem demo_drag_near : norm_ge ((1 : ℚ) - 0, (0 : ℚ) - 0) ((5 : ℚ) / 1) = false := by
  have h1 : ¬ ((5 : ℚ) / 1 ≤ 0) := by norm_num
  have h2 : ¬ ((5 : ℚ) / 1 * ((5 : ℚ) / 1) ≤
      ((1 : ℚ) - 0) * ((1 : ℚ) - 0) + ((0 : ℚ) - 0) * ((0 : ℚ) - 0)) := by
    norm_num
  simp [norm_ge, h1, h2]
  norm_num

/-- Witness for C3: a qualifying motion on the armed demo state activates
the drag handler; a short motion is a complete no-op; a qualifying motion
without a drag handler hits the assertion. -/
theorem C3_drag_activation_witness :
    (motion demoDragTool gtB (10, 0) true).isSome = true ∧
    motion demoDragTool gtB (1, 0) true = some gtB ∧
    motion demoDragTool gtA (10, 0) true = none :=
  ⟨(C3_drag_activation demoDragTool gtB gtB gtA gtB gtC (10, 0) (1, 0) (10, 0)
      (1, 1) (3, 3) (0, 0) (0, 0) (0, 0) DH.other rfl rfl rfl demo_drag_far
      (by decide) rfl rfl demo_drag_near rfl rfl rfl demo_drag_far rfl).1.2.1,
   (C3_drag_activation demoDragTool gtB gtB gtA gtB gtC (10, 0) (1, 0) (10, 0)
      (1, 1) (3, 3) (0, 0) (0, 0) (0, 0) DH.other rfl rfl rfl demo_drag_far
      (by decide) rfl rfl demo_drag_near rfl rfl rfl demo_drag_far rfl).2.1,
   (C3_drag_activation demoDragTool gtB gtB gtA gtB gtC (10, 0) (1, 0) (10, 0)
      (1, 1) (3, 3) (0, 0) (0, 0) (0, 0) DH.other rfl rfl rfl demo_drag_far
      (by decide) rfl rfl demo_drag_near rfl rfl rfl demo_drag_far rfl).2.2.1⟩

/-- Claim C9 (implicit): `load` on a freshly constructed highlight list,
before any `save` or `reset_save`, fails with the missing-`ini` attribute
error (`none`); `save` and `reset_save` create the baseline (`load` then
succeeds); the `saved` list of the constructor is never written by any
operation and never read (`load` commutes with replacing it); and the
engine only avoids the failure because tool activation (`enter`) always
performs a reset before any update cycle: a raw update cycle on an engine
state without baselines fails, while after `enter` it succeeds. -/
theorem C9_fresh_load_fails (T : ToolSpec α σ H A) (s : GT α σ H A)
    (coor : Coor) (vscale : ℚ) (h : HighlightList α)
    (v : List (α × Bool)) (args : List α) (p : Bool)
    (hfresh : s.hl_proposals.ini = none) :
    (HighlightList.mkNew α).load = none ∧
    (h.save.load).isSome = true ∧ (h.reset_save.load).isSome = true ∧
    (h.add args p).saved = h.saved ∧ h.save.saved = h.saved ∧
    h.reset_save.saved = h.saved ∧
    (∀ t, h.load = some t → t.saved = h.saved) ∧
    ({ h with saved := v } : HighlightList α).load =
      h.load.map (fun t => { t with saved := v }) ∧
    run_update_cycle T s coor = none ∧
    (enter T s vscale).isSome = true ∧
    (∀ t, enter T s vscale = some t →
      (run_update_cycle T t coor).isSome = true) := by
  refine ⟨rfl, by simp [HighlightList.load], by simp [HighlightList.load],
    by simp, by simp, by simp, ?_, ?_, ?_, ?_, ?_⟩
  · intro t ht
    unfold HighlightList.load at ht
    rcases hi : h.ini with _ | i <;> rw [hi] at ht
    · cases ht
    · simp only [Option.map_some', Option.some_inj] at ht
      rw [← ht]
  · unfold HighlightList.load
    rcases hi : h.ini with _ | i <;> simp
  · unfold run_update_cycle pre_update hl_load_all
    rw [HighlightList.load_none _ hfresh]
    rfl
  · exact (reset_facts T { s with scale := vscale }).1
  · intro t ht
    rw [run_update_cycle_isSome]
    obtain ⟨_, _, _, _, _, _, i1, i2, i3, _⟩ :=
      (reset_facts T { s with scale := vscale }).2 t ht
    exact ⟨by rw [i1]; rfl, by rw [i2]; rfl, by rw [i3]; rfl⟩

/-- Witness for C9 on a fresh highlight list and the fresh demo engine
state. -/
theorem C9_fresh_load_fails_witness :
    (HighlightList.mkNew ℕ).load = none ∧
    run_update_cycle demoDragTool gtFresh (0, 0) = none ∧
    (enter demoDragTool gtFresh 1).isSome = true :=
  ⟨(C9_fresh_load_fails demoDragTool gtFresh (0, 0) 1 hl5 [] [9] false rfl).1,
   (C9_fresh_load_fails demoDragTool gtFresh (0, 0) 1 hl5 [] [9] false
      rfl).2.2.2.2.2.2.2.2.1,
   (C9_fresh_load_fails demoDragTool gtFresh (0, 0) 1 hl5 [] [9] false
      rfl).2.2.2.2.2.2.2.2.2.1⟩

/-- Claim C5: commit (`save`) followed by restore (`load`) leaves the
working list equal to exactly the sticky subset of the working list at
commit time, and later mutation of the restored working list (`add`, `pop`,
`remove`, `remove_if`) never changes the stored baseline. -/
theorem C5_commit_restore (α : Type) [DecidableEq α] (h r t : HighlightList α)
    (x : α × Bool) (y : α) (args : List α) (perm : Bool) (cond : α → Bool)
    (hr : h.save.load = some r) :
    r.l = h.l.filter (fun e => e.2) ∧ (h.save.load).isSome = true ∧
    (r.add args perm).ini = r.ini ∧
    (r.pop = some (x, t) → t.ini = r.ini) ∧
    (r.remove y = some t → t.ini = r.ini) ∧
    (r.remove_if cond).ini = r.ini := by
  have hini : h.save.ini = some (h.l.filter (fun e => e.2)) := by simp
  rw [HighlightList.load_of_ini _ _ hini] at hr
  have hre : r = { h.save with l := h.l.filter (fun e => e.2) } :=
    (Option.some_inj.mp hr).symm
  subst hre
  refine ⟨rfl, by simp [HighlightList.load_of_ini _ _ hini], by simp, ?_, ?_, rfl⟩
  · intro hp
    unfold HighlightList.pop at hp
    rcases hg : List.getLast? (α := α × Bool) (h.l.filter (fun e => e.2))
        with _ | z <;> rw [hg] at hp
    · cases hp
    · rw [Option.some_inj] at hp
      have := congrArg Prod.snd hp
      simp only at this
      rw [← this]
    -- the popped copy keeps the same baseline
  · intro hp
    unfold HighlightList.remove at hp
    split at hp
    · rw [Option.some_inj] at hp
      rw [← hp]
    · cases hp

/-- Witness for C5 on a two-element working list with one sticky entry. -/
theorem C5_commit_restore_witness :
    hl5r.l = hl5.l.filter (fun e => e.2) ∧ hl5pop.ini = hl5r.ini :=
  ⟨(C5_commit_restore ℕ hl5 hl5r hl5pop ((1 : ℕ), true) 1 [9] false
      (fun _ => false) (by decide)).1,
   (C5_commit_restore ℕ hl5 hl5r hl5pop ((1 : ℕ), true) 1 [9] false
      (fun _ => false) (by decide)).2.2.2.1 (by decide)⟩

/-- Claim C7: for the hide tool, a click on empty space turns show-all mode
on and chains the update handler to `update_unhide`; while chained, a click
on a hidden object clears that object's hidden flag, turns show-all mode
back off, and returns to the basic handler; and leaving the tool, or any
reset, with the tool's reset hook installed turns show-all mode off. -/
theorem C7_hide_tool {β : Type} (dist : β → Coor → ℚ) (s1 s2 s3 s4 : HideGT β)
    (c1 c2 : Coor) (o2 : ℕ) (ip1 iq1 ih1 ip2 iq2 ih2 : List (ℕ × Bool))
    (h1u : s1.update = HideH.basic) (h1c : s1.click_coor = none)
    (h1p : s1.hl_proposals.ini = some ip1)
    (h1q : s1.hl_selected.ini = some iq1)
    (h1h : s1.hl_helpers.ini = some ih1)
    (h1pick : (hide_coor_to_pcl dist s1.scale s1.tst c1 none).1 = none)
    (h2u : s2.update = HideH.unhide) (h2c : s2.click_coor = none)
    (h2p : s2.hl_proposals.ini = some ip2)
    (h2q : s2.hl_selected.ini = some iq2)
    (h2h : s2.hl_helpers.ini = some ih2)
    (h2or : s2.on_reset = HideA.onResetA)
    (h2pick : (hide_coor_to_pcl dist s2.scale s2.tst c2
      (some (fun gi _ => s2.tst.gi_to_hidden gi))).1 = some o2)
    (h3or : s3.on_reset = HideA.onResetA)
    (h4or : s4.on_reset = HideA.onResetA) :
    ((button_press (hideTool dist) s1 c1).isSome = true ∧
     ∀ r, button_press (hideTool dist) s1 c1 = some r →
       r.tst.show_all_mode = true ∧ r.update = HideH.unhide) ∧
    ((button_press (hideTool dist) s2 c2).isSome = true ∧
     ∀ r, button_press (hideTool dist) s2 c2 = some r →
       r.tst.gi_to_hidden o2 = false ∧ r.tst.show_all_mode = false ∧
       r.update = HideH.basic) ∧
    (∀ r, hide_leave dist s3 = some r → r.tst.show_all_mode = false) ∧
    (∀ r, reset (hideTool dist) s4 = some r →
      r.tst.show_all_mode = false) := by
  refine ⟨?_, ?_, ?_, reset_hide_show_all dist s4 h4or⟩
  · -- empty-space click in the basic phase
    have hb := hideTool_basic_none dist c1 (pre_loaded s1 ip1 iq1 ih1) h1pick
    set u1 := hl_update_all (applyEff (pre_loaded s1 ip1 iq1 ih1)
      { (pre_loaded s1 ip1 iq1 ih1).eff with
        confirm := some (HideA.setShowAllA true)
        confirm_next := some HideH.unhide }) with hu1
    have e1 : run_update_cycle (hideTool dist) s1 c1 = some u1 := by
      rw [run_update_cycle_some _ _ _ ip1 iq1 ih1 h1p h1q h1h, h1u, hb]
    have hu1drag : u1.drag = none := by
      rw [hu1]
      simp [hl_update_all, GT.eff, pre_loaded]
    have hu1conf : u1.confirm = some (HideA.setShowAllA true) := by
      rw [hu1]
      simp [hl_update_all]
    have hu1next : u1.confirm_next = some HideH.unhide := by
      rw [hu1]
      simp [hl_update_all]
    have hbp : button_press (hideTool dist) s1 c1 =
        run_update_cycle (hideTool dist)
          (run_confirm_cycle (hideTool dist) u1) c1 := by
      unfold button_press button_press_core
      rw [h1c]
      simp only [Option.isSome_none, Bool.false_eq_true, if_false,
        Option.some_bind]
      rw [e1]
      simp only [Option.some_bind, hu1drag]
    have hafter_next : (after_confirm_action (hideTool dist) u1).confirm_next =
        some HideH.unhide := by
      unfold after_confirm_action
      simp [hu1conf, hu1next]
    have erc : run_confirm_cycle (hideTool dist) u1 =
        hl_save_all { after_confirm_action (hideTool dist) u1 with
          update := HideH.unhide } := by
      rw [run_confirm_cycle_eq, hafter_next]
    have hrc_update : (run_confirm_cycle (hideTool dist) u1).update =
        HideH.unhide := by
      rw [erc]
      simp [hl_save_all]
    have hrc_show : (run_confirm_cycle (hideTool dist) u1).tst.show_all_mode =
        true := by
      rw [erc]
      unfold after_confirm_action
      simp [hl_save_all, hu1conf, hideTool_action_setShowAll,
        set_show_all_mode]
    constructor
    · rw [hbp, run_update_cycle_isSome]
      exact run_confirm_cycle_inis _ _
    · intro r hr
      rw [hbp] at hr
      obtain ⟨_, _, f3, _, _, _⟩ := run_update_cycle_frame _ _ _ _ hr
      have ht := run_update_cycle_hide_tst dist _ c1 r hr
      refine ⟨?_, ?_⟩
      · rw [ht, hrc_show]
      · rw [f3, hrc_update]
  · -- unhiding click in the chained phase
    have hb := hideTool_unhide_some dist c2 (pre_loaded s2 ip2 iq2 ih2) o2 h2pick
    set u2 := hl_update_all (applyEff (pre_loaded s2 ip2 iq2 ih2)
      { (pre_loaded s2 ip2 iq2 ih2).eff with
        hl_selected := (pre_loaded s2 ip2 iq2 ih2).hl_selected.add [o2] true
        confirm := some (HideA.unhideA o2) }) with hu2
    have e2 : run_update_cycle (hideTool dist) s2 c2 = some u2 := by
      rw [run_update_cycle_some _ _ _ ip2 iq2 ih2 h2p h2q h2h, h2u, hb]
    have hu2drag : u2.drag = none := by
      rw [hu2]
      simp [hl_update_all, GT.eff, pre_loaded]
    have hu2conf : u2.confirm = some (HideA.unhideA o2) := by
      rw [hu2]
      simp [hl_update_all]
    have hu2next : u2.confirm_next = none := by
      rw [hu2]
      simp [hl_update_all, GT.eff, pre_loaded]
    have hu2tst : u2.tst = s2.tst := by
      rw [hu2]
      simp [hl_update_all, GT.eff, pre_loaded]
    have hu2or : u2.on_reset = HideA.onResetA := by
      rw [hu2]
      simp [hl_update_all, GT.eff, pre_loaded, h2or]
    have hbp : button_press (hideTool dist) s2 c2 =
        run_update_cycle (hideTool dist)
          (run_confirm_cycle (hideTool dist) u2) c2 := by
      unfold button_press button_press_core
      rw [h2c]
      simp only [Option.isSome_none, Bool.false_eq_true, if_false,
        Option.some_bind]
      rw [e2]
      simp only [Option.some_bind, hu2drag]
    have hafter : after_confirm_action (hideTool dist) u2 =
        applyAct { u2 with ghost_confirms := u2.ghost_confirms + 1 }
          ((hideTool dist).run_action (HideA.unhideA o2)
            { u2 with ghost_confirms := u2.ghost_confirms + 1 }) := by
      unfold after_confirm_action
      simp [hu2conf]
    have hafter_next : (after_confirm_action (hideTool dist) u2).confirm_next =
        none := by
      rw [hafter]
      simp [hu2next]
    have erc : run_confirm_cycle (hideTool dist) u2 =
        (let t := { hl_reset_all (after_confirm_action (hideTool dist) u2) with
          update := (hideTool dist).update_basic }
         applyAct t ((hideTool dist).run_action t.on_reset t)) := by
      rw [run_confirm_cycle_eq, hafter_next]
    have hafter_tst : (after_confirm_action (hideTool dist) u2).tst =
        unhide_obj s2.tst o2 := by
      rw [hafter]
      simp [hideTool_action_unhide, hu2tst]
    have hafter_or : (after_confirm_action (hideTool dist) u2).on_reset =
        HideA.onResetA := by
      rw [hafter]
      simp [hideTool_action_unhide, hu2or]
    have hrc_update : (run_confirm_cycle (hideTool dist) u2).update =
        HideH.basic := by
      rw [erc]
      simp [hl_reset_all, hideTool]
    have hrc_tst : (run_confirm_cycle (hideTool dist) u2).tst =
        set_show_all (unhide_obj s2.tst o2) false := by
      rw [erc]
      dsimp only
      simp [hl_reset_all, hafter_or, hideTool_action_onReset, hafter_tst]
    constructor
    · rw [hbp, run_update_cycle_isSome]
      exact run_confirm_cycle_inis _ _
    · intro r hr
      rw [hbp] at hr
      obtain ⟨_, _, f3, _, _, _⟩ := run_update_cycle_frame _ _ _ _ hr
      have ht := run_update_cycle_hide_tst dist _ c2 r hr
      refine ⟨?_, ?_, ?_⟩
      · rw [ht, hrc_tst, set_show_all_hidden, unhide_obj_hidden]
      · rw [ht, hrc_tst, set_show_all_mode]
      · rw [f3, hrc_update]
  · -- leaving the tool mid-chain
    intro r hr
    unfold hide_leave at hr
    exact reset_hide_show_all dist _ (by simp [h3or]) r hr

/-- Claim C8 counterexample: a move-tool drag update over an intersection
with the two ordered solutions `(1,1)` and `(2,2)` (first selected) leaves
the helper overlay's working list empty — the non-selected solution is added
to the *proposals* overlay (with sticky = false), not to the helper overlay
the claim names. -/
theorem C8_counterexample :
    (run_update_cycle mT0 mGT1 ((0 : ℚ), (0 : ℚ))).map
      (fun r => r.hl_helpers.l) = some [] ∧
    (run_update_cycle mT0 mGT1 ((0 : ℚ), (0 : ℚ))).map
      (fun r => r.hl_proposals.l) =
      some [(MoveE.pt (2, 2), false)] := by
  decide

/-- Claim C8 (amended): during a move-tool drag of an intersection with two
ordered candidate solutions, each drag update adds the non-selected solution
to the *proposals* overlay with sticky = false (the helper overlay's working
list stays at its baseline), and once the dragged object no longer has two
solutions the next update cycle leaves the proposals working list at exactly
its baseline, so the non-baseline alternative no longer appears. -/
theorem C8_move_drag_proposal (dist : Coor → Coor → ℚ) (nh : ℚ → Coor → Bool)
    (lookup : ℕ → MTool × ℚ) (s s' : MoveGT) (c c' : Coor) (g g' : ℚ)
    (cs : Coor × Coor) (ip iq ih ip' iq' ih' : List (MoveE × Bool))
    (hu : s.update = MoveH.moveObj MTool.intersection g)
    (hcand : s.tst.cands = some cs)
    (hp : s.hl_proposals.ini = some ip) (hq : s.hl_selected.ini = some iq)
    (hh : s.hl_helpers.ini = some ih)
    (hu' : s'.update = MoveH.moveObj MTool.intersection g')
    (hcand' : s'.tst.cands = none)
    (hp' : s'.hl_proposals.ini = some ip')
    (hq' : s'.hl_selected.ini = some iq')
    (hh' : s'.hl_helpers.ini = some ih') :
    ((run_update_cycle (moveTool dist nh lookup) s c).isSome = true ∧
     ∀ r, run_update_cycle (moveTool dist nh lookup) s c = some r →
       r.hl_proposals.l =
         ip ++ [(MoveE.pt (if nh g c then cs.1 else cs.2), false)] ∧
       (MoveE.pt (if nh g c then cs.1 else cs.2), false) ∈ r.hl_proposals.l ∧
       r.hl_helpers.l = ih ∧ r.tst.hyper_i = nh g c) ∧
    ((run_update_cycle (moveTool dist nh lookup) s' c').isSome = true ∧
     ∀ r, run_update_cycle (moveTool dist nh lookup) s' c' = some r →
       r.hl_proposals.l = ip' ∧
       ∀ e, e ∉ ip' → e ∉ r.hl_proposals.l) := by
  constructor
  · constructor
    · rw [run_update_cycle_isSome]
      exact ⟨by rw [hp]; rfl, by rw [hq]; rfl, by rw [hh]; rfl⟩
    · intro r hr
      rw [run_update_cycle_some _ _ _ ip iq ih hp hq hh, hu,
        moveTool_moveObj_eval] at hr
      rw [show (pre_loaded s ip iq ih).tst.cands = some cs from hcand] at hr
      simp only [Option.some_inj] at hr
      rw [← hr]
      refine ⟨?_, ?_, ?_, ?_⟩
      · simp [hl_update_all, pre_loaded, HighlightList.add]
      · simp [hl_update_all, pre_loaded, HighlightList.add]
      · simp [hl_update_all, GT.eff, pre_loaded]
      · simp [hl_update_all, pre_loaded]
  · constructor
    · rw [run_update_cycle_isSome]
      exact ⟨by rw [hp']; rfl, by rw [hq']; rfl, by rw [hh']; rfl⟩
    · intro r hr
      rw [run_update_cycle_some _ _ _ ip' iq' ih' hp' hq' hh', hu',
        moveTool_moveObj_eval] at hr
      rw [show (pre_loaded s' ip' iq' ih').tst.cands = none from hcand'] at hr
      simp only [Option.some_inj] at hr
      rw [← hr]
      have hl : (hl_update_all (applyEff (pre_loaded s' ip' iq' ih')
          { (pre_loaded s' ip' iq' ih').eff with
            tst := { (pre_loaded s' ip' iq' ih').tst with
              hyper_i := nh g' c' } })).hl_proposals.l = ip' := by
        simp [hl_update_all, GT.eff, pre_loaded]
      refine ⟨hl, ?_⟩
      intro e he
      rw [hl]
      exact he

/-- Witness for C8 (amended) on the concrete mid-drag states: with two
solutions the non-selected `(2,2)` is proposed non-sticky; with none the
proposals working list is exactly the (empty) baseline. -/
theorem C8_move_drag_proposal_witness :
    (run_update_cycle mT0 mGT1 ((0 : ℚ), (0 : ℚ))).isSome = true ∧
    (run_update_cycle mT0 mGT2 ((1 : ℚ), (1 : ℚ))).isSome = true :=
  ⟨(C8_move_drag_proposal (fun _ _ => 0) (fun _ _ => false)
      (fun _ => (MTool.intersection, 0)) mGT1 mGT2 (0, 0) (1, 1) 0 0
      ((1, 1), (2, 2)) [] [] [] [] [] [] rfl rfl rfl rfl rfl rfl rfl rfl rfl
      rfl).1.1,
   (C8_move_drag_proposal (fun _ _ => 0) (fun _ _ => false)
      (fun _ => (MTool.intersection, 0)) mGT1 mGT2 (0, 0) (1, 1) 0 0
      ((1, 1), (2, 2)) [] [] [] [] [] [] rfl rfl rfl rfl rfl rfl rfl rfl rfl
      rfl).2.1⟩

/-- Witness for C7: both hide-tool presses run to completion on the concrete
scenes (empty scene in the basic phase; hidden object 7 in the chained
phase). -/
theorem C7_hide_tool_witness :
    (button_press (hideTool dist0) hGT1 ((0 : ℚ), (0 : ℚ))).isSome = true ∧
    (button_press (hideTool dist0) hGT2 ((0 : ℚ), (0 : ℚ))).isSome = true :=
  ⟨(C7_hide_tool dist0 hGT1 hGT2 hGT2 hGT2 (0, 0) (0, 0) 7 [] [] [] [] [] []
      rfl rfl rfl rfl rfl hGT1_pick rfl rfl rfl rfl rfl rfl hGT2_pick rfl
      rfl).1.1,
   (C7_hide_tool dist0 hGT1 hGT2 hGT2 hGT2 (0, 0) (0, 0) 7 [] [] [] [] [] []
      rfl rfl rfl rfl rfl hGT1_pick rfl rfl rfl rfl rfl rfl hGT2_pick rfl
      rfl).2.1.1⟩

end GeoLogic
